import Mathlib

/-!
Verification of the Social-Post-Helper document codec, storage provider,
autosave controller and export pipeline against their specification.

The definitions below are shallow embeddings of the TypeScript sources:
  * src/client/src/types/customLayout.ts   (document codec / layout variants)
  * src/client/src/lib/storage/localStorage.ts  (capacity-constrained backend)
  * src/client/src/hooks/useAutoSave.ts    (autosave controller)
  * src/electron/main/ipc.ts               (recent-projects list)
JavaScript strings are modelled as Lean List Char wrapped in String;
JavaScript numbers used for geometry are modelled as rationals, which is
faithful for the scaling properties considered here because multiplying an
IEEE double by two is exact.  Single-character global regex replacement is
modelled as a character-wise expansion, and template literals as explicit
string concatenation.
-/

set_option maxRecDepth 16384

attribute [local semireducible] Rat.add Rat.mul Rat.sub Rat.inv

/-- Concatenation of a list of strings; a template literal
`a${x}b` is exactly the concatenation of its fragments. -/
def strConcat (l : List String) : String := String.mk (List.flatten (l.map String.data))

/-- The apostrophe character, written by code point to keep sources plain. -/
def aposChar : Char := Char.ofNat 39

/-- Character-wise expansion of a JavaScript global single-character
replacement such as `s.replace(/&/g, "&amp;")`: every occurrence of `c`
becomes `r`, all other characters are kept. -/
def repl (c : Char) (r : List Char) (s : List Char) : List Char :=
  s.flatMap (fun x => if x = c then r else [x])

/-- Embedding of escapeXml (customLayout.ts lines 53-60): the five
sequential global replacements, innermost first as in the source. -/
def escapeXmlData (s : List Char) : List Char :=
  repl aposChar "&apos;".data
    (repl '"' "&quot;".data
      (repl '>' "&gt;".data
        (repl '<' "&lt;".data
          (repl '&' "&amp;".data s))))

/-- Embedding of escapeXml on strings. -/
def escapeXml (s : String) : String := String.mk (escapeXmlData s.data)

/-- The intended per-character escape table: each of the five reserved
markup characters goes to its entity escape, everything else is unchanged. -/
def escChar (c : Char) : List Char :=
  if c = '&' then "&amp;".data
  else if c = '<' then "&lt;".data
  else if c = '>' then "&gt;".data
  else if c = '"' then "&quot;".data
  else if c = aposChar then "&apos;".data
  else [c]

/-! ## Data model

SlideData, FontSettings, CustomFont and the project entities follow §3 of
the specification and the field usage in the sources; carousel.ts,
font.ts and project.ts themselves are not part of the provided sources,
so their record shapes are modelled from the spec. -/

/-- Slide fields, modelled from the spec (§3) and their usage in
customLayout.ts: four optional free-text slots, three colors, the layout
identifier, the 1-based position and the owning-carousel reference. -/
structure SlideData where
  id : String
  carousel_id : String
  slide_number : Nat
  layout_type : String
  title : Option String
  subtitle : Option String
  body_text : Option String
  quote : Option String
  background_color : String
  font_color : String
  accent_color : String
deriving DecidableEq, Repr

/-- Font settings record, modelled from the spec (§3). -/
structure FontSettings where
  headingFont : String
  bodyFont : String
  accentFont : String
  googleFonts : List String
deriving DecidableEq, Repr

/-- CustomLayout record (customLayout.ts lines 1-14); the optional Figma
provenance fields are irrelevant to rendering and carried as options. -/
structure CustomLayout where
  id : String
  name : String
  description : String
  htmlTemplate : String
  cssTemplate : String
  createdAt : String
  modifiedAt : Option String
  isFromFigma : Option Bool
  originalSvg : Option String
deriving DecidableEq, Repr

/-- CustomFont record, modelled from the spec (§3) and the construction
in LocalStorageProvider.uploadFont. -/
structure CustomFont where
  id : String
  name : String
  family : String
  format : String
  base64Data : String
  uploadedAt : String
deriving DecidableEq, Repr

/-- JavaScript truthiness of an optional string: undefined and the empty
string are falsy, every other string is truthy. -/
def truthy (o : Option String) : Bool :=
  match o with
  | none => false
  | some s => !(s == "")

/-- Value of an optional string slot, empty when absent (the
JavaScript idiom `slide.title || ""`). -/
def orEmpty (o : Option String) : String := o.getD ""

/-- Decimal rendering of an interpolated numeric geometry value. -/
def numStr (q : ℚ) : String := toString q

/-! ## Geometry of the built-in layout variants

Each record transcribes the arithmetic of one render function in
customLayout.ts; every field is one computed geometric quantity that the
function interpolates into the document. -/

/-- Geometry of renderDictionaryEntry (customLayout.ts lines 156-224). -/
structure DictionaryGeometry where
  padding : ℚ
  titleSize : ℚ
  bodySize : ℚ
  subtitleSize : ℚ
  titleX : ℚ
  titleY : ℚ
  subtitleX : ℚ
  subtitleY : ℚ
  lineX1 : ℚ
  lineY : ℚ
  lineX2 : ℚ
  bodyX : ℚ
  bodyY : ℚ
  bodyW : ℚ
  bodyH : ℚ

def dictionaryGeometry (width height : ℚ) : DictionaryGeometry :=
  let padding := min width height * (6/100)
  let titleSize := min width height * (8/100)
  let bodySize := min width height * (35/1000)
  let subtitleSize := min width height * (25/1000)
  { padding, titleSize, bodySize, subtitleSize,
    titleX := padding, titleY := padding + titleSize,
    subtitleX := padding, subtitleY := padding + titleSize + subtitleSize + 10,
    lineX1 := padding, lineY := padding + titleSize + subtitleSize + 30,
    lineX2 := width - padding,
    bodyX := padding, bodyY := padding + titleSize + subtitleSize + 50,
    bodyW := width - padding * 2,
    bodyH := height - padding * 2 - titleSize - subtitleSize - 60 }

/-- Geometry of renderHeaderBody (customLayout.ts lines 268-321). -/
structure HeaderBodyGeometry where
  padding : ℚ
  titleSize : ℚ
  bodySize : ℚ
  titleX : ℚ
  titleY : ℚ
  accentX : ℚ
  accentY : ℚ
  accentW : ℚ
  accentH : ℚ
  bodyX : ℚ
  bodyY : ℚ
  bodyW : ℚ
  bodyH : ℚ

def headerBodyGeometry (width height : ℚ) : HeaderBodyGeometry :=
  let padding := min width height * (8/100)
  let titleSize := min width height * (10/100)
  let bodySize := min width height * (4/100)
  { padding, titleSize, bodySize,
    titleX := width / 2, titleY := height * (35/100),
    accentX := width / 2 - 50, accentY := height * (42/100),
    accentW := 100, accentH := 4,
    bodyX := padding, bodyY := height * (48/100),
    bodyW := width - padding * 2, bodyH := height * (40/100) }

/-- Geometry of renderBoldCallout (customLayout.ts lines 229-263). -/
structure BoldCalloutGeometry where
  padding : ℚ
  textSize : ℚ
  lineHeight : ℚ

def boldCalloutGeometry (width height : ℚ) : BoldCalloutGeometry :=
  let padding := min width height * (10/100)
  let textSize := min width height * (6/100)
  { padding, textSize, lineHeight := textSize * (14/10) }

def boldTotalHeight (g : BoldCalloutGeometry) (n : Nat) : ℚ := n * g.lineHeight

def boldStartY (height : ℚ) (g : BoldCalloutGeometry) (n : Nat) : ℚ :=
  (height - boldTotalHeight g n) / 2 + g.textSize

def boldLineY (height : ℚ) (g : BoldCalloutGeometry) (n i : Nat) : ℚ :=
  boldStartY height g n + i * g.lineHeight

/-- Geometry of renderQuoteHighlight (customLayout.ts lines 326-381). -/
structure QuoteHighlightGeometry where
  padding : ℚ
  quoteSize : ℚ
  quoteMarkSize : ℚ
  markX : ℚ
  markY : ℚ
  foX : ℚ
  foY : ℚ
  foW : ℚ
  foH : ℚ
  attrX : ℚ
  attrY : ℚ
  attrSize : ℚ

def quoteHighlightGeometry (width height : ℚ) : QuoteHighlightGeometry :=
  let padding := min width height * (10/100)
  let quoteSize := min width height * (5/100)
  let quoteMarkSize := min width height * (15/100)
  { padding, quoteSize, quoteMarkSize,
    markX := padding, markY := height * (25/100),
    foX := padding + 20, foY := height * (30/100),
    foW := width - padding * 2 - 40, foH := height * (40/100),
    attrX := width - padding, attrY := height * (80/100),
    attrSize := quoteSize * (6/10) }

/-- Geometry of renderMinimalistFocus (customLayout.ts lines 386-437). -/
structure MinimalistFocusGeometry where
  padding : ℚ
  titleSize : ℚ
  bodySize : ℚ
  accentX : ℚ
  accentY : ℚ
  accentW : ℚ
  accentH : ℚ
  titleX : ℚ
  titleY : ℚ
  foX : ℚ
  foY : ℚ
  foW : ℚ
  foH : ℚ

def minimalistFocusGeometry (width height : ℚ) : MinimalistFocusGeometry :=
  let padding := min width height * (10/100)
  let titleSize := min width height * (6/100)
  let bodySize := min width height * (35/1000)
  { padding, titleSize, bodySize,
    accentX := padding, accentY := height * (40/100),
    accentW := 4, accentH := height * (20/100),
    titleX := padding + 20, titleY := height * (45/100),
    foX := padding + 20, foY := height * (50/100),
    foW := width - padding * 2 - 20, foH := height * (30/100) }

/-! ## Built-in layout variant renderers

Each render function of customLayout.ts is transcribed as a concatenation
of template fragments; the fragment around each free-text slot is factored
into a named definition so that theorems can point at the embedding site.
Conditional blocks mirror the JavaScript `cond ? block : ""` pattern. -/

def contentOpen : String := "\n<g id=\"content\">\n"

def contentClose : String := "\n</g>"

def textClose : String := "\n</text>\n"

def foreignClose : String := "\n</div>\n</foreignObject>\n"

/-- Shared opening rect of every variant (`<rect id="background" .../>`). -/
def backgroundRect (bg : String) (width height : ℚ) : String :=
  strConcat ["\n<rect id=\"background\" width=\"", numStr width, "\" height=\"",
    numStr height, "\" fill=\"", bg, "\"/>\n"]

def dictTitleOpen (width height : ℚ) (headingFont fontColor : String) : String :=
  strConcat ["<text id=\"title-text\"\n x=\"", numStr (dictionaryGeometry width height).titleX,
    "\" y=\"", numStr (dictionaryGeometry width height).titleY,
    "\"\n font-family=\"", headingFont, ", sans-serif\"\n font-size=\"",
    numStr (dictionaryGeometry width height).titleSize,
    "\"\n font-weight=\"bold\"\n fill=\"", fontColor, "\">\n"]

def dictSubtitleOpen (width height : ℚ) (bodyFont accentColor : String) : String :=
  strConcat ["<text id=\"subtitle-text\"\n x=\"", numStr (dictionaryGeometry width height).subtitleX,
    "\" y=\"", numStr (dictionaryGeometry width height).subtitleY,
    "\"\n font-family=\"", bodyFont, ", sans-serif\"\n font-size=\"",
    numStr (dictionaryGeometry width height).subtitleSize,
    "\"\n font-style=\"italic\"\n fill=\"", accentColor, "\">\n"]

def dictAccentLine (width height : ℚ) (accentColor : String) : String :=
  strConcat ["<line id=\"accent-element\"\n x1=\"", numStr (dictionaryGeometry width height).lineX1,
    "\" y1=\"", numStr (dictionaryGeometry width height).lineY,
    "\" x2=\"", numStr (dictionaryGeometry width height).lineX2,
    "\" y2=\"", numStr (dictionaryGeometry width height).lineY,
    "\"\n stroke=\"", accentColor, "\"\n stroke-width=\"2\"/>\n"]

def dictBodyOpen (width height : ℚ) (bodyFont fontColor : String) : String :=
  strConcat ["<foreignObject x=\"", numStr (dictionaryGeometry width height).bodyX,
    "\" y=\"", numStr (dictionaryGeometry width height).bodyY,
    "\"\n width=\"", numStr (dictionaryGeometry width height).bodyW,
    "\" height=\"", numStr (dictionaryGeometry width height).bodyH,
    "\">\n<div xmlns=\"http://www.w3.org/1999/xhtml\"\n style=\"font-family: ", bodyFont,
    ", sans-serif;\n font-size: ", numStr (dictionaryGeometry width height).bodySize,
    "px;\n color: ", fontColor, ";\n line-height: 1.6;\">\n"]

/-- Embedding of renderDictionaryEntry (customLayout.ts lines 156-224). -/
def renderDictionaryEntry (slide : SlideData) (width height : ℚ) (fonts : FontSettings) : String :=
  backgroundRect slide.background_color width height
  ++ contentOpen
  ++ (if truthy slide.title then
        dictTitleOpen width height fonts.headingFont slide.font_color
          ++ escapeXml (orEmpty slide.title) ++ textClose
      else "")
  ++ (if truthy slide.subtitle then
        dictSubtitleOpen width height fonts.bodyFont slide.accent_color
          ++ escapeXml (orEmpty slide.subtitle) ++ textClose
      else "")
  ++ dictAccentLine width height slide.accent_color
  ++ (if truthy slide.body_text then
        dictBodyOpen width height fonts.bodyFont slide.font_color
          ++ escapeXml (orEmpty slide.body_text) ++ foreignClose
      else "")
  ++ contentClose

/-- JavaScript `s.split("\n")` used by renderBoldCallout: splitting on a
single separator character. -/
def splitOnChar (c : Char) (s : List Char) : List (List Char) :=
  s.foldr (fun x acc =>
    match acc with
    | [] => [[x]]
    | a :: as => if x = c then [] :: a :: as else (x :: a) :: as) [[]]

/-- Text source of renderBoldCallout: `slide.body_text || slide.title || ""`. -/
def boldSourceText (slide : SlideData) : String :=
  if truthy slide.body_text then orEmpty slide.body_text
  else if truthy slide.title then orEmpty slide.title
  else ""

def boldLineOpen (width height : ℚ) (n i : Nat) (headingFont fontColor : String) : String :=
  strConcat ["<text id=\"body-text-", toString i,
    "\"\n x=\"", numStr (width / 2),
    "\" y=\"", numStr (boldLineY height (boldCalloutGeometry width height) n i),
    "\"\n font-family=\"", headingFont, ", sans-serif\"\n font-size=\"",
    numStr (boldCalloutGeometry width height).textSize,
    "\"\n font-weight=\"bold\"\n text-anchor=\"middle\"\n fill=\"", fontColor, "\">\n"]

/-- Embedding of renderBoldCallout (customLayout.ts lines 229-263): the
chosen text is split into lines and every line becomes one centered text
element, escaped individually. -/
def renderBoldCallout (slide : SlideData) (width height : ℚ) (fonts : FontSettings) : String :=
  let lines := splitOnChar '\n' (boldSourceText slide).data
  backgroundRect slide.background_color width height
  ++ contentOpen
  ++ String.join (lines.enum.map (fun p =>
       boldLineOpen width height lines.length p.1 fonts.headingFont slide.font_color
         ++ escapeXml (String.mk p.2) ++ textClose))
  ++ contentClose

def headerTitleOpen (width height : ℚ) (headingFont fontColor : String) : String :=
  strConcat ["<text id=\"title-text\"\n x=\"", numStr (headerBodyGeometry width height).titleX,
    "\" y=\"", numStr (headerBodyGeometry width height).titleY,
    "\"\n font-family=\"", headingFont, ", sans-serif\"\n font-size=\"",
    numStr (headerBodyGeometry width height).titleSize,
    "\"\n font-weight=\"bold\"\n text-anchor=\"middle\"\n fill=\"", fontColor, "\">\n"]

def headerAccentRect (width height : ℚ) (accentColor : String) : String :=
  strConcat ["<rect id=\"accent-element\"\n x=\"", numStr (headerBodyGeometry width height).accentX,
    "\" y=\"", numStr (headerBodyGeometry width height).accentY,
    "\"\n width=\"", numStr (headerBodyGeometry width height).accentW,
    "\" height=\"", numStr (headerBodyGeometry width height).accentH,
    "\"\n fill=\"", accentColor, "\"/>\n"]

def headerBodyOpen (width height : ℚ) (bodyFont fontColor : String) : String :=
  strConcat ["<foreignObject x=\"", numStr (headerBodyGeometry width height).bodyX,
    "\" y=\"", numStr (headerBodyGeometry width height).bodyY,
    "\"\n width=\"", numStr (headerBodyGeometry width height).bodyW,
    "\" height=\"", numStr (headerBodyGeometry width height).bodyH,
    "\">\n<div xmlns=\"http://www.w3.org/1999/xhtml\"\n style=\"font-family: ", bodyFont,
    ", sans-serif;\n font-size: ", numStr (headerBodyGeometry width height).bodySize,
    "px;\n color: ", fontColor, ";\n text-align: center;\n line-height: 1.6;\">\n"]

/-- Embedding of renderHeaderBody (customLayout.ts lines 268-321), the
designated default fallback variant. -/
def renderHeaderBody (slide : SlideData) (width height : ℚ) (fonts : FontSettings) : String :=
  backgroundRect slide.background_color width height
  ++ contentOpen
  ++ (if truthy slide.title then
        headerTitleOpen width height fonts.headingFont slide.font_color
          ++ escapeXml (orEmpty slide.title) ++ textClose
      else "")
  ++ headerAccentRect width height slide.accent_color
  ++ (if truthy slide.body_text then
        headerBodyOpen width height fonts.bodyFont slide.font_color
          ++ escapeXml (orEmpty slide.body_text) ++ foreignClose
      else "")
  ++ contentClose

def quoteMark (width height : ℚ) (accentColor : String) : String :=
  strConcat ["<text x=\"", numStr (quoteHighlightGeometry width height).markX,
    "\" y=\"", numStr (quoteHighlightGeometry width height).markY,
    "\"\n font-family=\"Georgia, serif\"\n font-size=\"",
    numStr (quoteHighlightGeometry width height).quoteMarkSize,
    "\"\n fill=\"", accentColor, "\"\n opacity=\"0.3\">\n\"\n</text>\n"]

def quoteFoOpen (width height : ℚ) (accentFont fontColor : String) : String :=
  strConcat ["<foreignObject x=\"", numStr (quoteHighlightGeometry width height).foX,
    "\" y=\"", numStr (quoteHighlightGeometry width height).foY,
    "\"\n width=\"", numStr (quoteHighlightGeometry width height).foW,
    "\" height=\"", numStr (quoteHighlightGeometry width height).foH,
    "\">\n<div xmlns=\"http://www.w3.org/1999/xhtml\"\n style=\"font-family: ", accentFont,
    ", serif;\n font-size: ", numStr (quoteHighlightGeometry width height).quoteSize,
    "px;\n font-style: italic;\n color: ", fontColor, ";\n line-height: 1.5;\">\n"]

def quoteAttrOpen (width height : ℚ) (bodyFont accentColor : String) : String :=
  strConcat ["<text id=\"attribution\"\n x=\"", numStr (quoteHighlightGeometry width height).attrX,
    "\" y=\"", numStr (quoteHighlightGeometry width height).attrY,
    "\"\n font-family=\"", bodyFont, ", sans-serif\"\n font-size=\"",
    numStr (quoteHighlightGeometry width height).attrSize,
    "\"\n text-anchor=\"end\"\n fill=\"", accentColor, "\">\n— "]

/-- Embedding of renderQuoteHighlight (customLayout.ts lines 326-381);
the block content is `slide.quote || slide.body_text || ""`. -/
def renderQuoteHighlight (slide : SlideData) (width height : ℚ) (fonts : FontSettings) : String :=
  backgroundRect slide.background_color width height
  ++ contentOpen
  ++ quoteMark width height slide.accent_color
  ++ (if truthy slide.quote || truthy slide.body_text then
        quoteFoOpen width height fonts.accentFont slide.font_color
          ++ escapeXml (if truthy slide.quote then orEmpty slide.quote
                        else if truthy slide.body_text then orEmpty slide.body_text else "")
          ++ foreignClose
      else "")
  ++ (if truthy slide.title then
        quoteAttrOpen width height fonts.bodyFont slide.accent_color
          ++ escapeXml (orEmpty slide.title) ++ textClose
      else "")
  ++ contentClose

def miniAccentRect (width height : ℚ) (accentColor : String) : String :=
  strConcat ["<rect id=\"accent-element\"\n x=\"", numStr (minimalistFocusGeometry width height).accentX,
    "\" y=\"", numStr (minimalistFocusGeometry width height).accentY,
    "\"\n width=\"", numStr (minimalistFocusGeometry width height).accentW,
    "\" height=\"", numStr (minimalistFocusGeometry width height).accentH,
    "\"\n fill=\"", accentColor, "\"/>\n"]

def miniTitleOpen (width height : ℚ) (headingFont fontColor : String) : String :=
  strConcat ["<text id=\"title-text\"\n x=\"", numStr (minimalistFocusGeometry width height).titleX,
    "\" y=\"", numStr (minimalistFocusGeometry width height).titleY,
    "\"\n font-family=\"", headingFont, ", sans-serif\"\n font-size=\"",
    numStr (minimalistFocusGeometry width height).titleSize,
    "\"\n font-weight=\"bold\"\n fill=\"", fontColor, "\">\n"]

def miniBodyOpen (width height : ℚ) (bodyFont fontColor : String) : String :=
  strConcat ["<foreignObject x=\"", numStr (minimalistFocusGeometry width height).foX,
    "\" y=\"", numStr (minimalistFocusGeometry width height).foY,
    "\"\n width=\"", numStr (minimalistFocusGeometry width height).foW,
    "\" height=\"", numStr (minimalistFocusGeometry width height).foH,
    "\">\n<div xmlns=\"http://www.w3.org/1999/xhtml\"\n style=\"font-family: ", bodyFont,
    ", sans-serif;\n font-size: ", numStr (minimalistFocusGeometry width height).bodySize,
    "px;\n color: ", fontColor, ";\n line-height: 1.6;\">\n"]

/-- Embedding of renderMinimalistFocus (customLayout.ts lines 386-437). -/
def renderMinimalistFocus (slide : SlideData) (width height : ℚ) (fonts : FontSettings) : String :=
  backgroundRect slide.background_color width height
  ++ contentOpen
  ++ miniAccentRect width height slide.accent_color
  ++ (if truthy slide.title then
        miniTitleOpen width height fonts.headingFont slide.font_color
          ++ escapeXml (orEmpty slide.title) ++ textClose
      else "")
  ++ (if truthy slide.body_text then
        miniBodyOpen width height fonts.bodyFont slide.font_color
          ++ escapeXml (orEmpty slide.body_text) ++ foreignClose
      else "")
  ++ contentClose

/-! ## Custom layout rendering (placeholder substitution) -/

/-- JavaScript global replacement of a fixed literal pattern
(`s.replace(/pat/g, rep)`): leftmost, non-overlapping. -/
def replaceAllData (pat rep : List Char) : List Char → List Char
  | [] => []
  | c :: rest =>
    if pat.isPrefixOf (c :: rest) then rep ++ replaceAllData pat rep (rest.drop (pat.length - 1))
    else c :: replaceAllData pat rep rest
termination_by s => s.length
decreasing_by
  · simp only [List.length_drop, List.length_cons]
    omega
  · simp only [List.length_cons]
    omega

def replaceAllStr (s pat rep : String) : String :=
  String.mk (replaceAllData pat.data rep.data s.data)

def phTitle : String := "\x7b\x7btitle\x7d\x7d"

def phBodyText : String := "\x7b\x7bbody_text\x7d\x7d"

def phSubtitle : String := "\x7b\x7bsubtitle\x7d\x7d"

def phQuote : String := "\x7b\x7bquote\x7d\x7d"

def phBackgroundColor : String := "\x7b\x7bbackground_color\x7d\x7d"

def phFontColor : String := "\x7b\x7bfont_color\x7d\x7d"

def phAccentColor : String := "\x7b\x7baccent_color\x7d\x7d"

def phHeadingFont : String := "\x7b\x7bheading_font\x7d\x7d"

def phBodyFont : String := "\x7b\x7bbody_font\x7d\x7d"

def phAccentFont : String := "\x7b\x7baccent_font\x7d\x7d"

/-- The ten sequential placeholder substitutions applied to the HTML
template (customLayout.ts lines 450-460); the four text values arrive
already escaped. -/
def substituteHtml (html tv bv sv qv bg fc ac hf bf af : String) : String :=
  let h1 := replaceAllStr html phTitle tv
  let h2 := replaceAllStr h1 phBodyText bv
  let h3 := replaceAllStr h2 phSubtitle sv
  let h4 := replaceAllStr h3 phQuote qv
  let h5 := replaceAllStr h4 phBackgroundColor bg
  let h6 := replaceAllStr h5 phFontColor fc
  let h7 := replaceAllStr h6 phAccentColor ac
  let h8 := replaceAllStr h7 phHeadingFont hf
  let h9 := replaceAllStr h8 phBodyFont bf
  replaceAllStr h9 phAccentFont af

/-- The six placeholder substitutions applied to the CSS template
(customLayout.ts lines 463-469). -/
def substituteCss (css bg fc ac hf bf af : String) : String :=
  let c1 := replaceAllStr css phBackgroundColor bg
  let c2 := replaceAllStr c1 phFontColor fc
  let c3 := replaceAllStr c2 phAccentColor ac
  let c4 := replaceAllStr c3 phHeadingFont hf
  let c5 := replaceAllStr c4 phBodyFont bf
  replaceAllStr c5 phAccentFont af

/-- Document shell around the substituted templates
(customLayout.ts lines 471-479). -/
def customLayoutShell (bg : String) (width height : ℚ) (css html : String) : String :=
  backgroundRect bg width height
  ++ strConcat ["\n<foreignObject x=\"0\" y=\"0\" width=\"", numStr width,
      "\" height=\"", numStr height,
      "\">\n<div xmlns=\"http://www.w3.org/1999/xhtml\">\n<style>", css,
      "</style>\n", html, "\n</div>\n</foreignObject>"]

/-- Embedding of renderCustomLayout (customLayout.ts lines 442-480):
each slide text field is escaped and then substituted for its
placeholder in both templates. -/
def renderCustomLayout (slide : SlideData) (width height : ℚ) (fonts : FontSettings)
    (layout : CustomLayout) : String :=
  let html := substituteHtml layout.htmlTemplate
    (escapeXml (orEmpty slide.title)) (escapeXml (orEmpty slide.body_text))
    (escapeXml (orEmpty slide.subtitle)) (escapeXml (orEmpty slide.quote))
    slide.background_color slide.font_color slide.accent_color
    fonts.headingFont fonts.bodyFont fonts.accentFont
  let css := substituteCss layout.cssTemplate
    slide.background_color slide.font_color slide.accent_color
    fonts.headingFont fonts.bodyFont fonts.accentFont
  customLayoutShell slide.background_color width height css html

/-- The same rendering with the four substituted text values taken as
explicit arguments; renderCustomLayout instantiates them with the
escaped slide fields, which is the content of the escaping claim for
custom-template substitution. -/
def renderCustomLayoutSub (tv bv sv qv : String) (slide : SlideData) (width height : ℚ)
    (fonts : FontSettings) (layout : CustomLayout) : String :=
  let html := substituteHtml layout.htmlTemplate tv bv sv qv
    slide.background_color slide.font_color slide.accent_color
    fonts.headingFont fonts.bodyFont fonts.accentFont
  let css := substituteCss layout.cssTemplate
    slide.background_color slide.font_color slide.accent_color
    fonts.headingFont fonts.bodyFont fonts.accentFont
  customLayoutShell slide.background_color width height css html

/-! ## Layout variant registry and the full document -/

/-- Embedding of renderLayoutContent (customLayout.ts lines 485-515).
The switch tries the five built-in identifiers; otherwise a
`custom-`-prefixed identifier is resolved against the stored custom
layouts (dropping the 7-character prefix, which is what replacing the
first occurrence of `custom-` does on a string that starts with it), and
everything unresolved falls back to renderHeaderBody. -/
def renderLayoutContent (layouts : List CustomLayout) (slide : SlideData)
    (width height : ℚ) (fonts : FontSettings) : String :=
  if slide.layout_type = "dictionary_entry" then renderDictionaryEntry slide width height fonts
  else if slide.layout_type = "bold_callout" then renderBoldCallout slide width height fonts
  else if slide.layout_type = "header_body" then renderHeaderBody slide width height fonts
  else if slide.layout_type = "quote_highlight" then renderQuoteHighlight slide width height fonts
  else if slide.layout_type = "minimalist_focus" then renderMinimalistFocus slide width height fonts
  else
    match (if List.isPrefixOf "custom-".data slide.layout_type.data then
             layouts.find? (fun l => l.id == String.mk (slide.layout_type.data.drop 7))
           else none) with
    | some layout => renderCustomLayout slide width height fonts layout
    | none => renderHeaderBody slide width height fonts

/-- One row of the field-to-element mapping table in the metadata block. -/
structure MetaVarSpec where
  name : String
  element : String
  attr : Option String
deriving DecidableEq, Repr

/-- The fixed variables table of generateMetadata (customLayout.ts
lines 121-133). -/
def metadataVariables : List MetaVarSpec :=
  [⟨"title", "title-text", none⟩,
   ⟨"body_text", "body-text", none⟩,
   ⟨"subtitle", "subtitle-text", none⟩,
   ⟨"quote", "quote-text", none⟩,
   ⟨"background_color", "background", some "fill"⟩,
   ⟨"font_color", "title-text", some "fill"⟩,
   ⟨"accent_color", "accent-element", some "fill"⟩]

def metaVarLine (v : MetaVarSpec) : String :=
  strConcat ["<goround:var name=\"", v.name, "\" element=\"", v.element, "\"",
    (match v.attr with
     | some a => strConcat [" attr=\"", a, "\""]
     | none => ""), "/>"]

/-- Embedding of generateMetadata (customLayout.ts lines 121-151): the
namespaced goround block recording the layout identifier, carousel id,
slide number and the variables table. -/
def generateMetadata (slide : SlideData) : String :=
  strConcat ["\n<metadata>\n<goround:slide xmlns:goround=\"https://goround.dev/schema\">\n<goround:layout>",
    escapeXml slide.layout_type,
    "</goround:layout>\n<goround:carousel_id>", escapeXml slide.carousel_id,
    "</goround:carousel_id>\n<goround:slide_number>", toString slide.slide_number,
    "</goround:slide_number>\n<goround:variables>\n",
    String.intercalate "\n" (metadataVariables.map metaVarLine),
    "\n</goround:variables>\n</goround:slide>\n</metadata>"]

/-- Modelled from the spec: generateFontFaceCSS lives in fontStorage.ts,
which is not among the provided sources; per §4.1 step 5 it emits an
inline font-face declaration for an uploaded font. -/
def generateFontFaceCSS (font : CustomFont) : String :=
  strConcat ["@font-face \x7b font-family: \"", font.family,
    "\"; src: url(", font.base64Data, ") format(\"", font.format, "\"); \x7d"]

/-- Embedding of generateEmbeddedFontCSS (customLayout.ts lines 90-116):
custom fonts used by the settings are embedded, used Google fonts are
annotated as comments. -/
def generateEmbeddedFontCSS (customFonts : List CustomFont) (fontSettings : FontSettings) : String :=
  let used := [fontSettings.headingFont, fontSettings.bodyFont, fontSettings.accentFont]
  strConcat ((customFonts.filter (fun f => used.contains f.family)).map
      (fun f => generateFontFaceCSS f ++ "\n"))
    ++ strConcat ((fontSettings.googleFonts.filter (fun fam => used.contains fam)).map
      (fun fam => strConcat ["/* Google Font: ", fam, " - Load via CSS link */\n"]))

/-- Export preset (customLayout.ts lines 31-36). -/
structure ExportPreset where
  id : String
  name : String
  width : ℚ
  height : ℚ
deriving DecidableEq, Repr

/-- Embedding of slideToSvg (customLayout.ts lines 520-555); the global
reads getFontSettings, getAllCustomFonts and getAllCustomLayouts become
parameters, and `options?.includeMetadata !== false` becomes a flag. -/
def slideToSvg (customFonts : List CustomFont) (layouts : List CustomLayout)
    (fonts : FontSettings) (slide : SlideData) (preset : ExportPreset)
    (includeMetadata : Bool) : String :=
  let fontCSS := generateEmbeddedFontCSS customFonts fonts
  let layoutContent := renderLayoutContent layouts slide preset.width preset.height fonts
  let metadata := if includeMetadata then generateMetadata slide else ""
  strConcat ["<?xml version=\"1.0\" encoding=\"UTF-8\"?>\n<svg xmlns=\"http://www.w3.org/2000/svg\"\n xmlns:xlink=\"http://www.w3.org/1999/xlink\"\n width=\"",
    numStr preset.width, "\" height=\"", numStr preset.height,
    "\"\n viewBox=\"0 0 ", numStr preset.width, " ", numStr preset.height,
    "\">\n\n<defs>\n<style type=\"text/css\">\n<![CDATA[\n", fontCSS,
    "\n\n/* Default styles */\ntext \x7b\n dominant-baseline: hanging;\n\x7d\n]]>\n</style>\n</defs>\n\n",
    metadata, "\n\n", layoutContent, "\n\n</svg>"]

/-- Safe-character test of the filename sanitizer: the regex class
`[a-zA-Z0-9-_]` of generateSlideFilename. -/
def isFilenameSafeChar (c : Char) : Bool :=
  (('a' ≤ c && c ≤ 'z') || ('A' ≤ c && c ≤ 'Z') || ('0' ≤ c && c ≤ '9') || c = '-' || c = '_')

/-- The sanitizer of generateSlideFilename (customLayout.ts line 567):
`carouselName.replace(/[^a-zA-Z0-9-_]/g, "-")` replaces every character
outside the class with a hyphen. -/
def sanitizeCarouselName (s : String) : String :=
  String.mk (s.data.map (fun c => if isFilenameSafeChar c then c else '-'))

/-- JavaScript `String(n).padStart(3, "0")`. -/
def padStart3 (s : String) : String :=
  if s.length < 3 then String.mk (List.replicate (3 - s.length) '0') ++ s else s

/-- Embedding of generateSlideFilename (customLayout.ts lines 560-569);
the preset argument is accepted and unused, as in the source. -/
def generateSlideFilename (slide : SlideData) (carouselName : String)
    (_preset : ExportPreset) (format : String) : String :=
  strConcat [sanitizeCarouselName carouselName, "-slide-",
    padStart3 (toString slide.slide_number), ".", format]

/-- Sanitizer as worded by the claim for C8 (strip / remove every
character outside the class); stated only to compare against the
source's replacement behaviour. -/
def sanitizeByRemoval (s : String) : String :=
  String.mk (s.data.filter isFilenameSafeChar)

/-! ## Font upload (LocalStorageProvider.uploadFont) -/

/-- Lowercased final dot-separated segment of a filename: JavaScript
`file.name.split(".").pop()?.toLowerCase()`.  `split` never yields an
empty array, so `pop` always produces a value (possibly the empty
string, which the source treats as missing). -/
def fileExtension (name : String) : String :=
  String.mk (((splitOnChar '.' name.data).getLastD []).map Char.toLower)

/-- The accepted font formats (localStorage.ts line 302). -/
def validFontFormats : List String := ["ttf", "otf", "woff", "woff2"]

/-- JavaScript `name.replace(/\.[^/.]+$/, "")`: remove a final dot
followed by one or more characters none of which is a dot or a slash;
otherwise leave the name unchanged. -/
def stripFontExtension (name : String) : String :=
  let parts := splitOnChar '.' name.data
  let last := parts.getLastD []
  if parts.length ≥ 2 && !last.isEmpty && !last.contains '/' then
    String.mk (List.intercalate ['.'] parts.dropLast)
  else name

/-- JavaScript `fontName.replace(/[-_]/g, " ")`. -/
def fontFamilyOf (n : String) : String :=
  String.mk (n.data.map (fun c => if c = '-' || c = '_' then ' ' else c))

/-- Pure core of LocalStorageProvider.uploadFont (localStorage.ts lines
283-329): extension validation and CustomFont construction.  The
asynchronous file read supplies `base64Data`; `Date.now()` and the
upload timestamp are the `newId` and `nowIso` parameters. -/
def uploadFontCore (fileName base64Data newId nowIso : String) : Except String CustomFont :=
  let extension := fileExtension fileName
  if extension == "" || !(validFontFormats.contains extension) then
    Except.error "Unsupported font format. Please use TTF, OTF, WOFF, or WOFF2."
  else
    let fontName := stripFontExtension fileName
    Except.ok
      { id := newId, name := fontName, family := fontFamilyOf fontName,
        format := extension, base64Data := base64Data, uploadedAt := nowIso }

/-! ## Recent projects list (ipc.ts, recent:add handler) -/

/-- One entry of the recent-projects list (ipc.ts line 310). -/
structure RecentEntry where
  path : String
  name : String
  timestamp : Nat
deriving DecidableEq, Repr

/-- Embedding of the recent:add handler body (ipc.ts lines 308-330):
remove any entry with the same path, prepend the new entry, keep the
first 10. -/
def recentAdd (path name : String) (ts : Nat) (recent : List RecentEntry) : List RecentEntry :=
  (⟨path, name, ts⟩ :: recent.filter (fun r => r.path != path)).take 10

/-! ## Autosave controller (useAutoSave.ts)

The hook's mutable refs become a state record; `setTimeout` allocates a
fresh timer id and appends a pending timer, `clearTimeout` removes it.
`saveCalls` counts invocations of `storage.saveProject`. -/

inductive SaveStatus where
  | saved
  | saving
  | unsaved
  | error
deriving DecidableEq, Repr

structure AutoSaveState where
  hasProject : Bool
  timers : List (Nat × Nat)
  timerRef : Option Nat
  nextId : Nat
  isSaving : Bool
  hasUnsavedChanges : Bool
  status : SaveStatus
  saveCalls : Nat
deriving DecidableEq, Repr

/-- Entry of the save callback (useAutoSave.ts lines 50-57): a missing
project or an in-flight save returns immediately without touching the
storage provider; otherwise the in-flight flag is set, the status
becomes `saving` and the provider is called once. -/
def saveStart (s : AutoSaveState) : AutoSaveState :=
  if !s.hasProject || s.isSaving then s
  else { s with isSaving := true, status := SaveStatus.saving, saveCalls := s.saveCalls + 1 }

/-- Completion of the save callback (useAutoSave.ts lines 58-70): on
success the status becomes `saved` and the change flag clears; on
failure the status becomes `error`; the in-flight flag always clears. -/
def saveComplete (ok : Bool) (s : AutoSaveState) : AutoSaveState :=
  if ok then { s with status := SaveStatus.saved, hasUnsavedChanges := false, isSaving := false }
  else { s with status := SaveStatus.error, isSaving := false }

/-- JavaScript `clearTimeout(timerRef.current)`. -/
def clearPendingTimer (s : AutoSaveState) : AutoSaveState :=
  match s.timerRef with
  | some tid => { s with timers := s.timers.filter (fun t => t.1 != tid) }
  | none => s

/-- Embedding of markChanged (useAutoSave.ts lines 74-89): set the
change flag and `unsaved` status, clear any pending timer, then schedule
a save `delay` milliseconds from now. -/
def markChanged (enabled : Bool) (now delay : Nat) (s : AutoSaveState) : AutoSaveState :=
  if !enabled then s
  else
    let s1 := { s with hasUnsavedChanges := true, status := SaveStatus.unsaved }
    let s2 := clearPendingTimer s1
    let timer : Nat × Nat := (s2.nextId, now + delay)
    { s2 with
      timers := s2.timers ++ [timer]
      timerRef := some s2.nextId
      nextId := s2.nextId + 1 }

/-- A pending timer firing: the timer is consumed and its callback runs
the save entry. -/
def fireTimer (tid : Nat) (s : AutoSaveState) : AutoSaveState :=
  if s.timers.any (fun t => t.1 == tid) then
    saveStart { s with timers := s.timers.filter (fun t => t.1 != tid) }
  else s

/-! ## Capacity-constrained storage backend (localStorage.ts)

The browser key/value store is a list of key/value pairs plus the
backend's quota ceiling.  JSON serialization is the host's, so the
parser and serializer of each collection are parameters.  The functions
of storageUtils.ts (quota accounting) are not among the provided
sources and are modelled from the spec (§2 Quota Estimator, §4.3). -/

structure KVStore where
  items : List (String × String)
  total : Nat
deriving DecidableEq, Repr

def getItem (st : KVStore) (k : String) : Option String :=
  (st.items.find? (fun kv => kv.1 == k)).map (fun kv => kv.2)

def setItem (st : KVStore) (k v : String) : KVStore :=
  { st with items := st.items.filter (fun kv => kv.1 != k) ++ [(k, v)] }

/-- Modelled from the spec: getStorageQuota's `used` (storageUtils.ts is
not among the provided sources) — the serialized size of everything
currently stored. -/
def storageUsed (st : KVStore) : Nat :=
  (st.items.map (fun kv => kv.1.length + kv.2.length)).sum

/-- Modelled from the spec: hasEnoughSpace (storageUtils.ts is not among
the provided sources) compares a candidate write size against
`quota total - quota used`. -/
def hasEnoughSpace (st : KVStore) (size : Nat) : Bool :=
  size ≤ st.total - storageUsed st

/-- Modelled from the spec: estimateDataSize (storageUtils.ts is not
among the provided sources) measures the serialized size of the entire
candidate collection. -/
def estimateDataSize (serialize : α → String) (data : α) : Nat :=
  (serialize data).length

/-- Project entity, modelled from the spec (§3); carousels are opaque to
the storage layer. -/
structure Carousel where
  id : String
  name : String
deriving DecidableEq, Repr

structure Project where
  id : String
  name : String
  carousels : List Carousel
  createdAt : String
  modifiedAt : String
  description : Option String
deriving DecidableEq, Repr

/-- Embedding of LocalStorageProvider.getAllProjects (localStorage.ts
lines 62-70): absent key, empty value (falsy) and a parse failure (the
catch branch) all yield the empty list. -/
def getAllProjects (parse : String → Option (List Project)) (st : KVStore) : List Project :=
  match getItem st "carousel_projects" with
  | none => []
  | some s => if s == "" then [] else (parse s).getD []

/-- Embedding of LocalStorageProvider.getAllCustomLayouts
(localStorage.ts lines 182-190). -/
def getAllCustomLayouts (parse : String → Option (List CustomLayout)) (st : KVStore) :
    List CustomLayout :=
  match getItem st "custom_layouts" with
  | none => []
  | some s => if s == "" then [] else (parse s).getD []

/-- Embedding of LocalStorageProvider.getAllCustomFonts (localStorage.ts
lines 229-237). -/
def getAllCustomFonts (parse : String → Option (List CustomFont)) (st : KVStore) :
    List CustomFont :=
  match getItem st "custom_fonts" with
  | none => []
  | some s => if s == "" then [] else (parse s).getD []

/-- The default font settings (localStorage.ts lines 28-33). -/
def DEFAULT_FONT_SETTINGS_VALUE : FontSettings :=
  { headingFont := "AT-Kyrios Standard", bodyFont := "AT-Kyrios Text",
    accentFont := "Merriweather", googleFonts := [] }

/-- Embedding of LocalStorageProvider.getFontSettings (localStorage.ts
lines 331-339). -/
def getFontSettings (parse : String → Option FontSettings) (st : KVStore) : FontSettings :=
  match getItem st "font_settings" with
  | none => DEFAULT_FONT_SETTINGS_VALUE
  | some s => if s == "" then DEFAULT_FONT_SETTINGS_VALUE
              else (parse s).getD DEFAULT_FONT_SETTINGS_VALUE

/-- The findIndex / assign-or-push upsert of saveProject
(localStorage.ts lines 79-87). -/
def upsertProject (p : Project) (ps : List Project) : List Project :=
  match ps.findIdx? (fun q => q.id == p.id) with
  | some i => ps.set i p
  | none => ps ++ [p]

inductive SaveProjectError where
  | quotaExceeded (attempted used total available : Nat)
  | writeFailed (msg : String)
deriving DecidableEq, Repr

/-- Embedding of LocalStorageProvider.saveProject (localStorage.ts lines
77-112): read the whole collection, upsert the project with a fresh
modifiedAt, estimate the size of the entire rewritten collection, and
fail with the quota error (carrying attempted, used, total and
available sizes) before writing anything when it does not fit. -/
def saveProject (parse : String → Option (List Project)) (serialize : List Project → String)
    (now : String) (p : Project) (st : KVStore) : Except SaveProjectError Unit × KVStore :=
  let projects := getAllProjects parse st
  let p2 := { p with modifiedAt := now }
  let projects2 := upsertProject p2 projects
  let dataSize := estimateDataSize serialize projects2
  if !(hasEnoughSpace st dataSize) then
    (Except.error (SaveProjectError.quotaExceeded dataSize (storageUsed st) st.total
        (st.total - storageUsed st)), st)
  else
    (Except.ok (), setItem st "carousel_projects" (serialize projects2))

def projC2 : Project :=
  { id := "proj-1", name := "Demo", carousels := [], createdAt := "2026-01-01",
    modifiedAt := "2026-01-01", description := none }

def tenRecents : List RecentEntry :=
  [⟨"p0", "n", 0⟩, ⟨"p1", "n", 1⟩, ⟨"p2", "n", 2⟩, ⟨"p3", "n", 3⟩, ⟨"p4", "n", 4⟩,
   ⟨"p5", "n", 5⟩, ⟨"p6", "n", 6⟩, ⟨"p7", "n", 7⟩, ⟨"p8", "n", 8⟩, ⟨"p9", "n", 9⟩]

def slideLaunch : SlideData :=
  { id := "s1", carousel_id := "c1", slide_number := 1, layout_type := "header_body",
    title := some "Go Live", subtitle := none, body_text := none, quote := none,
    background_color := "#ffffff", font_color := "#000000", accent_color := "#ff0000" }

def presetSquare : ExportPreset := { id := "sq", name := "Square", width := 1080, height := 1080 }

/-- Substring occurrence test: pat occurs contiguously in s. -/
def containsSeq (pat s : List Char) : Bool :=
  match s with
  | [] => pat.isEmpty
  | _ :: rest => pat.isPrefixOf s || containsSeq pat rest

/-- A render function embeds its text argument only through escapeXml:
the surrounding document fragments do not depend on the text. -/
def EmbedsEscaped (f : String → String) : Prop :=
  ∃ pre post : String, ∀ t : String, t ≠ "" → f t = pre ++ escapeXml t ++ post

def slideNoOptional : SlideData :=
  { id := "s0", carousel_id := "c0", slide_number := 1, layout_type := "bold_callout",
    title := none, subtitle := none, body_text := none, quote := none,
    background_color := "#112233", font_color := "#ffffff", accent_color := "#00ff00" }

def slideAllFields : SlideData :=
  { id := "s9", carousel_id := "c9", slide_number := 2, layout_type := "dictionary_entry",
    title := some "T", subtitle := some "S", body_text := some "B", quote := some "Q",
    background_color := "#112233", font_color := "#ffffff", accent_color := "#00ff00" }

/-! ## Theorems -/

theorem strMk_append (a b : List Char) : String.mk a ++ String.mk b = String.mk (a ++ b) := rfl

theorem strAppend_assoc (a b c : String) : a ++ b ++ c = a ++ (b ++ c) := by
  cases a; cases b; cases c
  simp [strMk_append, List.append_assoc]

theorem strAppend_data (a b : String) : (a ++ b).data = a.data ++ b.data := by
  cases a; cases b; rfl

theorem strConcat_nil : strConcat [] = "" := rfl

theorem strConcat_cons (x : String) (l : List String) :
    strConcat (x :: l) = x ++ strConcat l := by
  cases x; simp [strConcat, strMk_append]

theorem strConcat_append (l1 l2 : List String) :
    strConcat (l1 ++ l2) = strConcat l1 ++ strConcat l2 := by
  simp [strConcat, strMk_append]

theorem repl_append (c : Char) (r : List Char) (a b : List Char) :
    repl c r (a ++ b) = repl c r a ++ repl c r b := by
  simp [repl]

theorem escapeXmlData_append (a b : List Char) :
    escapeXmlData (a ++ b) = escapeXmlData a ++ escapeXmlData b := by
  simp [escapeXmlData, repl_append]

theorem escapeXmlData_single (x : Char) : escapeXmlData [x] = escChar x := by
  by_cases h1 : x = '&'
  · subst h1; rfl
  by_cases h2 : x = '<'
  · subst h2; rfl
  by_cases h3 : x = '>'
  · subst h3; rfl
  by_cases h4 : x = '"'
  · subst h4; rfl
  by_cases h5 : x = aposChar
  · subst h5; rfl
  simp [escapeXmlData, repl, escChar, h1, h2, h3, h4, h5]

/-- The five sequential replacements of escapeXml together act exactly as
the per-character escape table: earlier replacements are never re-escaped
by later ones, and no character outside the reserved five is touched. -/
theorem escapeXmlData_eq_flatMap (s : List Char) :
    escapeXmlData s = s.flatMap escChar := by
  induction s with
  | nil => rfl
  | cons x xs ih =>
    have h : escapeXmlData (x :: xs) = escapeXmlData ([x] ++ xs) := rfl
    rw [List.flatMap_cons, h, escapeXmlData_append, escapeXmlData_single, ih]

/-- No entity escape and no kept character contains a raw `<`, `>`, `"`
or apostrophe, so the escaped text can never contribute one. -/
theorem escChar_no_raw (c : Char) :
    ∀ d ∈ escChar c, d ≠ '<' ∧ d ≠ '>' ∧ d ≠ '"' ∧ d ≠ aposChar := by
  intro d hd
  by_cases h1 : c = '&'
  · subst h1
    exact (by decide : ∀ d ∈ "&amp;".data, d ≠ '<' ∧ d ≠ '>' ∧ d ≠ '"' ∧ d ≠ aposChar) d hd
  by_cases h2 : c = '<'
  · subst h2
    exact (by decide : ∀ d ∈ "&lt;".data, d ≠ '<' ∧ d ≠ '>' ∧ d ≠ '"' ∧ d ≠ aposChar) d hd
  by_cases h3 : c = '>'
  · subst h3
    exact (by decide : ∀ d ∈ "&gt;".data, d ≠ '<' ∧ d ≠ '>' ∧ d ≠ '"' ∧ d ≠ aposChar) d hd
  by_cases h4 : c = '"'
  · subst h4
    exact (by decide : ∀ d ∈ "&quot;".data, d ≠ '<' ∧ d ≠ '>' ∧ d ≠ '"' ∧ d ≠ aposChar) d hd
  by_cases h5 : c = aposChar
  · subst h5
    exact (by decide : ∀ d ∈ "&apos;".data, d ≠ '<' ∧ d ≠ '>' ∧ d ≠ '"' ∧ d ≠ aposChar) d hd
  · simp [escChar, h1, h2, h3, h4, h5] at hd
    subst hd
    exact ⟨h2, h3, h4, h5⟩

theorem escapeXml_no_raw (s : String) :
    ∀ d ∈ (escapeXml s).data, d ≠ '<' ∧ d ≠ '>' ∧ d ≠ '"' ∧ d ≠ aposChar := by
  intro d hd
  simp only [escapeXml] at hd
  rw [escapeXmlData_eq_flatMap] at hd
  simp only [List.mem_flatMap] at hd
  obtain ⟨c, _, hdc⟩ := hd
  exact escChar_no_raw c d hdc

/-! ## Theorems -/

/-- C2: on the capacity-constrained backend, saveProject estimates the
serialized size of the entire rewritten projects collection, compares it
against `total - used`, and on insufficiency fails with the quota error
carrying attempted, used, total and available sizes, leaving the stored
collection untouched. -/
theorem claim_C2_quota_enforcement (parse : String → Option (List Project))
    (serialize : List Project → String) (now : String) (p : Project) (st : KVStore)
    (hbig : st.total - storageUsed st <
      estimateDataSize serialize (upsertProject { p with modifiedAt := now } (getAllProjects parse st))) :
    saveProject parse serialize now p st =
      (Except.error (SaveProjectError.quotaExceeded
        (estimateDataSize serialize (upsertProject { p with modifiedAt := now } (getAllProjects parse st)))
        (storageUsed st) st.total (st.total - storageUsed st)), st) := by
  have hno : hasEnoughSpace st
      (estimateDataSize serialize (upsertProject { p with modifiedAt := now } (getAllProjects parse st))) = false := by
    simp only [hasEnoughSpace, decide_eq_false_iff_not, not_le]
    exact hbig
  simp [saveProject, hno]

theorem claim_C2_quota_enforcement_witness :
    saveProject (fun _ => none) (fun _ => "0123456789x") "2026-01-02" projC2 ⟨[], 5⟩ =
      (Except.error (SaveProjectError.quotaExceeded 11 0 5 5), ⟨[], 5⟩) := by
  have h := claim_C2_quota_enforcement (fun _ => none) (fun _ => "0123456789x")
    "2026-01-02" projC2 ⟨[], 5⟩ (by decide)
  simpa using h

/-- C6: the recent-projects add operation returns at most 10 entries,
puts the new entry first, keeps the prior entries in order, preserves
path-uniqueness, contains the added path exactly once, and adding an
11th distinct path to a full list of 10 leaves exactly 10 entries. -/
theorem claim_C6_recent_list_bound (path name : String) (ts : Nat) (recent : List RecentEntry) :
    (recentAdd path name ts recent).length ≤ 10
    ∧ (recentAdd path name ts recent).head? = some ⟨path, name, ts⟩
    ∧ (recentAdd path name ts recent).tail.Sublist recent
    ∧ ((recent.map RecentEntry.path).Nodup →
        ((recentAdd path name ts recent).map RecentEntry.path).Nodup)
    ∧ (recentAdd path name ts recent).countP (fun r => r.path == path) = 1
    ∧ (recent.length = 10 → path ∉ recent.map RecentEntry.path →
        (recentAdd path name ts recent).length = 10) := by
  have hsplit : recentAdd path name ts recent =
      (⟨path, name, ts⟩ : RecentEntry) :: (recent.filter (fun r => r.path != path)).take 9 := by
    rw [recentAdd, show (10 : Nat) = 9 + 1 from rfl, List.take_succ_cons]
  have hfsub : (recent.filter (fun r => r.path != path)).Sublist recent := List.filter_sublist _
  have htsub : ((recent.filter (fun r => r.path != path)).take 9).Sublist recent :=
    (List.take_sublist _ _).trans hfsub
  refine ⟨?_, ?_, ?_, ?_, ?_, ?_⟩
  · simp [recentAdd, List.length_take]
  · rw [hsplit]; rfl
  · rw [hsplit]; exact htsub
  · intro hnd
    rw [hsplit]
    simp only [List.map_cons, List.nodup_cons]
    constructor
    · intro hmem
      simp only [List.mem_map] at hmem
      obtain ⟨r, hr, hrp⟩ := hmem
      have := (List.mem_filter.mp (List.mem_of_mem_take hr)).2
      rw [hrp] at this
      simp at this
    · exact hnd.sublist (htsub.map _)
  · rw [hsplit, List.countP_cons]
    have hzero : (recent.filter (fun r => r.path != path)).countP (fun r => r.path == path) = 0 := by
      rw [List.countP_eq_zero]
      intro r hr
      have := (List.mem_filter.mp hr).2
      simpa using this
    have hle := (List.take_sublist 9 (recent.filter (fun r => r.path != path))).countP_le
      (p := fun r => r.path == path)
    rw [hzero] at hle
    simp [Nat.le_zero.mp hle]
  · intro hlen hpath
    have hfilter : recent.filter (fun r => r.path != path) = recent := by
      rw [List.filter_eq_self]
      intro r hr
      have hne : r.path ≠ path := by
        intro hc
        exact hpath (List.mem_map.mpr ⟨r, hr, hc⟩)
      simpa using hne
    simp [recentAdd, hfilter, List.length_take, hlen]

theorem claim_C6_recent_list_bound_witness :
    (recentAdd "p10" "new" 10 tenRecents).length = 10
    ∧ ((recentAdd "p10" "new" 10 tenRecents).map RecentEntry.path).Nodup
    ∧ (recentAdd "p2" "again" 10 tenRecents).head? = some ⟨"p2", "again", 10⟩
    ∧ (recentAdd "p2" "again" 10 tenRecents).countP (fun r => r.path == "p2") = 1 := by
  have h1 := claim_C6_recent_list_bound "p10" "new" 10 tenRecents
  have h2 := claim_C6_recent_list_bound "p2" "again" 10 tenRecents
  exact ⟨h1.2.2.2.2.2 (by decide) (by decide), h1.2.2.2.1 (by decide), h2.2.1, h2.2.2.2.2.1⟩

/-- C7, counterexample to the claim as stated: the claim says a missing
extension is rejected, but a file named exactly "ttf" — which has no
extension at all — is accepted, because `split(".").pop()` on a dotless
name returns the whole name, which happens to be in the accepted set. -/
theorem counter_C7_extensionless_accepted :
    uploadFontCore "ttf" "data:font" "font-1" "2026-01-01" =
      Except.ok { id := "font-1", name := "ttf", family := "ttf", format := "ttf",
                  base64Data := "data:font", uploadedAt := "2026-01-01" } := by
  rfl

/-- C7 (amended): font upload validates the lowercased final
dot-separated segment of the filename against the set
`{ttf, otf, woff, woff2}` and rejects with the unsupported-format error
whenever that segment is not in the set; a dotless filename is treated
as one single segment (so a file named exactly "ttf" is accepted even
though it has no extension).  For the accepted file "MyFont-Bold.otf"
the resulting CustomFont has format "otf", name "MyFont-Bold" and
family "MyFont Bold". -/
theorem claim_C7_font_upload (name b i0 t0 : String)
    (hrej : validFontFormats.contains (fileExtension name) = false) :
    uploadFontCore name b i0 t0 =
      Except.error "Unsupported font format. Please use TTF, OTF, WOFF, or WOFF2."
    ∧ ∀ b2 i2 t2, uploadFontCore "MyFont-Bold.otf" b2 i2 t2 =
        Except.ok { id := i2, name := "MyFont-Bold", family := "MyFont Bold",
                    format := "otf", base64Data := b2, uploadedAt := t2 } := by
  constructor
  · simp only [uploadFontCore]
    have hnot : fileExtension name ∉ validFontFormats := by simpa using hrej
    simp [hnot]
  · intro b2 i2 t2
    rfl

theorem claim_C7_font_upload_witness :
    uploadFontCore "evil.exe" "data" "font-2" "2026-01-01" =
      Except.error "Unsupported font format. Please use TTF, OTF, WOFF, or WOFF2."
    ∧ uploadFontCore "MyFont-Bold.otf" "payload" "font-3" "2026-01-02" =
        Except.ok { id := "font-3", name := "MyFont-Bold", family := "MyFont Bold",
                    format := "otf", base64Data := "payload", uploadedAt := "2026-01-02" } := by
  have h := claim_C7_font_upload "evil.exe" "data" "font-2" "2026-01-01" (by decide)
  exact ⟨h.1, h.2 "payload" "font-3" "2026-01-02"⟩

/-- C8, counterexample to the claim as stated: the source sanitizer
replaces each character outside `[A-Za-z0-9_-]` with a hyphen rather
than removing it, so the carousel name "My Carousel" yields
"My-Carousel-slide-001.svg" and not the "MyCarousel-slide-001.svg" that
removal would give. -/
theorem counter_C8_sanitizer_not_removal :
    generateSlideFilename { slideLaunch with slide_number := 1 } "My Carousel" presetSquare "svg" =
      "My-Carousel-slide-001.svg"
    ∧ strConcat [sanitizeByRemoval "My Carousel", "-slide-", padStart3 (toString (1 : Nat)), ".", "svg"] =
      "MyCarousel-slide-001.svg"
    ∧ ("My-Carousel-slide-001.svg" : String) ≠ "MyCarousel-slide-001.svg" := by
  refine ⟨by decide, by decide, by decide⟩

/-- C8 (amended): the exported slide filename equals the carousel name
sanitized by replacing every character outside `[A-Za-z0-9_-]` with a
hyphen, followed by "-slide-", the slide number zero-padded to 3
digits, a dot and the format; the sanitized name consists only of
characters from the safe class, has the same length as the input, and
the "Launch" scenario yields "Launch-slide-001.svg". -/
theorem claim_C8_slide_filename (slide : SlideData) (name : String)
    (preset : ExportPreset) (format : String) :
    generateSlideFilename slide name preset format =
      strConcat [sanitizeCarouselName name, "-slide-",
        padStart3 (toString slide.slide_number), ".", format]
    ∧ (∀ c ∈ (sanitizeCarouselName name).data, isFilenameSafeChar c = true)
    ∧ (sanitizeCarouselName name).length = name.length
    ∧ generateSlideFilename slideLaunch "Launch" preset "svg" = "Launch-slide-001.svg" := by
  refine ⟨rfl, ?_, ?_, rfl⟩
  · intro c hc
    simp only [sanitizeCarouselName] at hc
    simp only [List.mem_map] at hc
    obtain ⟨d, _, rfl⟩ := hc
    by_cases h : isFilenameSafeChar d
    · simp [h]
    · simp only [h, Bool.false_eq_true, if_false]
      decide
  · simp only [sanitizeCarouselName, String.length, List.length_map]

theorem claim_C8_slide_filename_witness :
    generateSlideFilename slideLaunch "Launch" presetSquare "svg" = "Launch-slide-001.svg" :=
  (claim_C8_slide_filename slideLaunch "Launch" presetSquare "svg").2.2.2

/-- C10: the read operations of the capacity-constrained backend are
total at the public interface: a missing stored value or a failing
parse yields the empty list for projects, custom layouts and custom
fonts, and the default record for font settings. -/
theorem claim_C10_total_reads (pp : String → Option (List Project))
    (pl : String → Option (List CustomLayout)) (pf : String → Option (List CustomFont))
    (ps : String → Option FontSettings) (st : KVStore) :
    (getItem st "carousel_projects" = none → getAllProjects pp st = [])
    ∧ (∀ s, getItem st "carousel_projects" = some s → pp s = none → getAllProjects pp st = [])
    ∧ (getItem st "custom_layouts" = none → getAllCustomLayouts pl st = [])
    ∧ (∀ s, getItem st "custom_layouts" = some s → pl s = none → getAllCustomLayouts pl st = [])
    ∧ (getItem st "custom_fonts" = none → getAllCustomFonts pf st = [])
    ∧ (∀ s, getItem st "custom_fonts" = some s → pf s = none → getAllCustomFonts pf st = [])
    ∧ (getItem st "font_settings" = none → getFontSettings ps st = DEFAULT_FONT_SETTINGS_VALUE)
    ∧ (∀ s, getItem st "font_settings" = some s → ps s = none →
        getFontSettings ps st = DEFAULT_FONT_SETTINGS_VALUE) := by
  refine ⟨?_, ?_, ?_, ?_, ?_, ?_, ?_, ?_⟩
  · intro h; simp [getAllProjects, h]
  · intro s h hp
    simp only [getAllProjects, h, hp]
    by_cases he : s == ""
    · simp [he]
    · simp [he]
  · intro h; simp [getAllCustomLayouts, h]
  · intro s h hp
    simp only [getAllCustomLayouts, h, hp]
    by_cases he : s == ""
    · simp [he]
    · simp [he]
  · intro h; simp [getAllCustomFonts, h]
  · intro s h hp
    simp only [getAllCustomFonts, h, hp]
    by_cases he : s == ""
    · simp [he]
    · simp [he]
  · intro h; simp [getFontSettings, h]
  · intro s h hp
    simp only [getFontSettings, h, hp]
    by_cases he : s == ""
    · simp [he]
    · simp [he]

theorem claim_C10_total_reads_witness :
    getAllProjects (fun _ => none) ⟨[("carousel_projects", "not json")], 100⟩ = []
    ∧ getAllCustomFonts (fun _ => none) ⟨[], 100⟩ = []
    ∧ getFontSettings (fun _ => none) ⟨[("font_settings", "broken")], 100⟩ =
        DEFAULT_FONT_SETTINGS_VALUE := by
  have h1 := claim_C10_total_reads (fun _ => none) (fun _ => none) (fun _ => none) (fun _ => none)
    ⟨[("carousel_projects", "not json")], 100⟩
  have h2 := claim_C10_total_reads (fun _ => none) (fun _ => none) (fun _ => none) (fun _ => none)
    (⟨[], 100⟩ : KVStore)
  have h3 := claim_C10_total_reads (fun _ => none) (fun _ => none) (fun _ => none) (fun _ => none)
    ⟨[("font_settings", "broken")], 100⟩
  exact ⟨h1.2.1 "not json" (by decide) rfl, h2.2.2.2.2.1 (by decide),
    h3.2.2.2.2.2.2.2 "broken" (by decide) rfl⟩

/-- C5: marking the project as changed twice within one debounce window
leaves exactly one pending timer, whose deadline is the end of the
window measured from the second mark; firing it performs exactly one
storage-provider call; and a save entered while one is in flight
returns without touching the state, in particular without calling the
storage provider. -/
theorem claim_C5_autosave_coalescing (s : AutoSaveState) (t1 t2 delay : Nat)
    (hempty : s.timers = []) (_hwin : t1 ≤ t2) (_hwin2 : t2 < t1 + delay) :
    (markChanged true t2 delay (markChanged true t1 delay s)).timers = [(s.nextId + 1, t2 + delay)]
    ∧ (s.hasProject = true → s.isSaving = false →
        (fireTimer (s.nextId + 1) (markChanged true t2 delay (markChanged true t1 delay s))).saveCalls
          = s.saveCalls + 1
        ∧ (fireTimer (s.nextId + 1) (markChanged true t2 delay (markChanged true t1 delay s))).timers = [])
    ∧ (∀ s2 : AutoSaveState, s2.isSaving = true → saveStart s2 = s2) := by
  have hstep : markChanged true t2 delay (markChanged true t1 delay s) =
      { s with hasUnsavedChanges := true, status := SaveStatus.unsaved,
               timers := [(s.nextId + 1, t2 + delay)],
               timerRef := some (s.nextId + 1), nextId := s.nextId + 2 } := by
    simp [markChanged, clearPendingTimer, hempty]
    cases s.timerRef <;> simp
  refine ⟨?_, ?_, ?_⟩
  · rw [hstep]
  · intro hproj hsav
    rw [hstep]
    simp [fireTimer, saveStart, hproj, hsav]
  · intro s2 hs2
    simp [saveStart, hs2]

theorem claim_C5_autosave_coalescing_witness :
    (markChanged true 1 2000 (markChanged true 0 2000
      ⟨true, [], none, 0, false, false, SaveStatus.saved, 0⟩)).timers = [(1, 2001)]
    ∧ (fireTimer 1 (markChanged true 1 2000 (markChanged true 0 2000
        ⟨true, [], none, 0, false, false, SaveStatus.saved, 0⟩))).saveCalls = 1 := by
  have h := claim_C5_autosave_coalescing ⟨true, [], none, 0, false, false, SaveStatus.saved, 0⟩
    0 1 2000 rfl (by decide) (by decide)
  exact ⟨h.1, (h.2.1 rfl rfl).1⟩

/-- Doubling the dimensions doubles the minimum of width and height. -/
theorem minScale (w h : ℚ) : min (2 * w) (2 * h) = 2 * min w h := by
  rcases le_total w h with hle | hle
  · rw [min_eq_left hle, min_eq_left (by linarith)]
  · rw [min_eq_right hle, min_eq_right (by linarith)]

/-- C4, counterexample to the claim as stated: not every computed
geometric quantity doubles when both dimensions double.  The accent
underline of header_body sits at `width / 2 - 50`, so at 100×100 its x
is 0 while at 200×200 it is 50, not 0; and the subtitle baseline of
dictionary_entry carries a fixed `+ 10` pixel offset, so it ends up at
43 rather than the doubled 53. -/
theorem counter_C4_fixed_pixel_offsets :
    (headerBodyGeometry 200 200).accentX ≠ 2 * (headerBodyGeometry 100 100).accentX
    ∧ (headerBodyGeometry 100 100).accentX = 0
    ∧ (headerBodyGeometry 200 200).accentX = 50
    ∧ (dictionaryGeometry 100 100).subtitleY = 53 / 2
    ∧ (dictionaryGeometry 200 200).subtitleY = 43 := by
  refine ⟨by norm_num [headerBodyGeometry], by norm_num [headerBodyGeometry],
    by norm_num [headerBodyGeometry], by norm_num [dictionaryGeometry],
    by norm_num [dictionaryGeometry]⟩

theorem dictionaryGeometry_scales (w h : ℚ) :
    (dictionaryGeometry (2 * w) (2 * h)).padding = 2 * (dictionaryGeometry w h).padding
    ∧ (dictionaryGeometry (2 * w) (2 * h)).titleSize = 2 * (dictionaryGeometry w h).titleSize
    ∧ (dictionaryGeometry (2 * w) (2 * h)).bodySize = 2 * (dictionaryGeometry w h).bodySize
    ∧ (dictionaryGeometry (2 * w) (2 * h)).subtitleSize = 2 * (dictionaryGeometry w h).subtitleSize
    ∧ (dictionaryGeometry (2 * w) (2 * h)).titleX = 2 * (dictionaryGeometry w h).titleX
    ∧ (dictionaryGeometry (2 * w) (2 * h)).titleY = 2 * (dictionaryGeometry w h).titleY
    ∧ (dictionaryGeometry (2 * w) (2 * h)).lineX2 = 2 * (dictionaryGeometry w h).lineX2
    ∧ (dictionaryGeometry (2 * w) (2 * h)).bodyW = 2 * (dictionaryGeometry w h).bodyW := by
  refine ⟨?_, ?_, ?_, ?_, ?_, ?_, ?_, ?_⟩ <;>
    simp only [dictionaryGeometry, minScale w h] <;> ring

theorem headerBodyGeometry_scales (w h : ℚ) :
    (headerBodyGeometry (2 * w) (2 * h)).padding = 2 * (headerBodyGeometry w h).padding
    ∧ (headerBodyGeometry (2 * w) (2 * h)).titleSize = 2 * (headerBodyGeometry w h).titleSize
    ∧ (headerBodyGeometry (2 * w) (2 * h)).bodySize = 2 * (headerBodyGeometry w h).bodySize
    ∧ (headerBodyGeometry (2 * w) (2 * h)).titleX = 2 * (headerBodyGeometry w h).titleX
    ∧ (headerBodyGeometry (2 * w) (2 * h)).titleY = 2 * (headerBodyGeometry w h).titleY
    ∧ (headerBodyGeometry (2 * w) (2 * h)).accentY = 2 * (headerBodyGeometry w h).accentY
    ∧ (headerBodyGeometry (2 * w) (2 * h)).bodyX = 2 * (headerBodyGeometry w h).bodyX
    ∧ (headerBodyGeometry (2 * w) (2 * h)).bodyY = 2 * (headerBodyGeometry w h).bodyY
    ∧ (headerBodyGeometry (2 * w) (2 * h)).bodyW = 2 * (headerBodyGeometry w h).bodyW
    ∧ (headerBodyGeometry (2 * w) (2 * h)).bodyH = 2 * (headerBodyGeometry w h).bodyH
    ∧ (headerBodyGeometry (2 * w) (2 * h)).accentW = (headerBodyGeometry w h).accentW
    ∧ (headerBodyGeometry (2 * w) (2 * h)).accentH = (headerBodyGeometry w h).accentH := by
  refine ⟨?_, ?_, ?_, ?_, ?_, ?_, ?_, ?_, ?_, ?_, ?_, ?_⟩ <;>
    simp only [headerBodyGeometry, minScale w h] <;> ring

theorem boldCalloutGeometry_scales (w h : ℚ) :
    (boldCalloutGeometry (2 * w) (2 * h)).padding = 2 * (boldCalloutGeometry w h).padding
    ∧ (boldCalloutGeometry (2 * w) (2 * h)).textSize = 2 * (boldCalloutGeometry w h).textSize
    ∧ (boldCalloutGeometry (2 * w) (2 * h)).lineHeight = 2 * (boldCalloutGeometry w h).lineHeight
    ∧ (∀ n : Nat, boldStartY (2 * h) (boldCalloutGeometry (2 * w) (2 * h)) n
        = 2 * boldStartY h (boldCalloutGeometry w h) n)
    ∧ (∀ n i : Nat, boldLineY (2 * h) (boldCalloutGeometry (2 * w) (2 * h)) n i
        = 2 * boldLineY h (boldCalloutGeometry w h) n i) := by
  refine ⟨?_, ?_, ?_, fun n => ?_, fun n i => ?_⟩ <;>
    simp only [boldCalloutGeometry, boldStartY, boldTotalHeight, boldLineY, minScale w h] <;> ring

theorem quoteHighlightGeometry_scales (w h : ℚ) :
    (quoteHighlightGeometry (2 * w) (2 * h)).padding = 2 * (quoteHighlightGeometry w h).padding
    ∧ (quoteHighlightGeometry (2 * w) (2 * h)).quoteSize = 2 * (quoteHighlightGeometry w h).quoteSize
    ∧ (quoteHighlightGeometry (2 * w) (2 * h)).quoteMarkSize
        = 2 * (quoteHighlightGeometry w h).quoteMarkSize
    ∧ (quoteHighlightGeometry (2 * w) (2 * h)).markX = 2 * (quoteHighlightGeometry w h).markX
    ∧ (quoteHighlightGeometry (2 * w) (2 * h)).markY = 2 * (quoteHighlightGeometry w h).markY
    ∧ (quoteHighlightGeometry (2 * w) (2 * h)).foY = 2 * (quoteHighlightGeometry w h).foY
    ∧ (quoteHighlightGeometry (2 * w) (2 * h)).foH = 2 * (quoteHighlightGeometry w h).foH
    ∧ (quoteHighlightGeometry (2 * w) (2 * h)).attrX = 2 * (quoteHighlightGeometry w h).attrX
    ∧ (quoteHighlightGeometry (2 * w) (2 * h)).attrY = 2 * (quoteHighlightGeometry w h).attrY
    ∧ (quoteHighlightGeometry (2 * w) (2 * h)).attrSize = 2 * (quoteHighlightGeometry w h).attrSize := by
  refine ⟨?_, ?_, ?_, ?_, ?_, ?_, ?_, ?_, ?_, ?_⟩ <;>
    simp only [quoteHighlightGeometry, minScale w h] <;> ring

theorem minimalistFocusGeometry_scales (w h : ℚ) :
    (minimalistFocusGeometry (2 * w) (2 * h)).padding = 2 * (minimalistFocusGeometry w h).padding
    ∧ (minimalistFocusGeometry (2 * w) (2 * h)).titleSize
        = 2 * (minimalistFocusGeometry w h).titleSize
    ∧ (minimalistFocusGeometry (2 * w) (2 * h)).bodySize
        = 2 * (minimalistFocusGeometry w h).bodySize
    ∧ (minimalistFocusGeometry (2 * w) (2 * h)).accentX
        = 2 * (minimalistFocusGeometry w h).accentX
    ∧ (minimalistFocusGeometry (2 * w) (2 * h)).accentY
        = 2 * (minimalistFocusGeometry w h).accentY
    ∧ (minimalistFocusGeometry (2 * w) (2 * h)).accentH
        = 2 * (minimalistFocusGeometry w h).accentH
    ∧ (minimalistFocusGeometry (2 * w) (2 * h)).titleY = 2 * (minimalistFocusGeometry w h).titleY
    ∧ (minimalistFocusGeometry (2 * w) (2 * h)).foY = 2 * (minimalistFocusGeometry w h).foY
    ∧ (minimalistFocusGeometry (2 * w) (2 * h)).foH = 2 * (minimalistFocusGeometry w h).foH
    ∧ (minimalistFocusGeometry (2 * w) (2 * h)).accentW = (minimalistFocusGeometry w h).accentW := by
  refine ⟨?_, ?_, ?_, ?_, ?_, ?_, ?_, ?_, ?_, ?_⟩ <;>
    simp only [minimalistFocusGeometry, minScale w h] <;> ring

/-- C4 (amended): for every built-in variant, the geometric quantities
computed as fractions of min(width, height) or as pure proportions of
the dimensions — paddings, font sizes, line heights and proportional
positions — are exactly doubled when both dimensions double; the
quantities built from fixed pixel constants (the 100×4 accent underline
of header_body, the 4-pixel accent bar of minimalist_focus, the
+10/+30/+50/−60 pixel offsets of dictionary_entry, the +20/−40 offsets
of quote_highlight and minimalist_focus) stay fixed and therefore do
not double. -/
theorem claim_C4_resolution_scaling (w h : ℚ) :
    ((dictionaryGeometry (2 * w) (2 * h)).padding = 2 * (dictionaryGeometry w h).padding
      ∧ (dictionaryGeometry (2 * w) (2 * h)).titleSize = 2 * (dictionaryGeometry w h).titleSize
      ∧ (dictionaryGeometry (2 * w) (2 * h)).bodySize = 2 * (dictionaryGeometry w h).bodySize
      ∧ (dictionaryGeometry (2 * w) (2 * h)).subtitleSize
          = 2 * (dictionaryGeometry w h).subtitleSize
      ∧ (dictionaryGeometry (2 * w) (2 * h)).titleY = 2 * (dictionaryGeometry w h).titleY
      ∧ (dictionaryGeometry (2 * w) (2 * h)).lineX2 = 2 * (dictionaryGeometry w h).lineX2)
    ∧ ((headerBodyGeometry (2 * w) (2 * h)).padding = 2 * (headerBodyGeometry w h).padding
      ∧ (headerBodyGeometry (2 * w) (2 * h)).titleSize = 2 * (headerBodyGeometry w h).titleSize
      ∧ (headerBodyGeometry (2 * w) (2 * h)).bodySize = 2 * (headerBodyGeometry w h).bodySize
      ∧ (headerBodyGeometry (2 * w) (2 * h)).titleX = 2 * (headerBodyGeometry w h).titleX
      ∧ (headerBodyGeometry (2 * w) (2 * h)).titleY = 2 * (headerBodyGeometry w h).titleY
      ∧ (headerBodyGeometry (2 * w) (2 * h)).accentW = (headerBodyGeometry w h).accentW)
    ∧ ((boldCalloutGeometry (2 * w) (2 * h)).textSize = 2 * (boldCalloutGeometry w h).textSize
      ∧ (boldCalloutGeometry (2 * w) (2 * h)).lineHeight
          = 2 * (boldCalloutGeometry w h).lineHeight
      ∧ ∀ n i : Nat, boldLineY (2 * h) (boldCalloutGeometry (2 * w) (2 * h)) n i
          = 2 * boldLineY h (boldCalloutGeometry w h) n i)
    ∧ ((quoteHighlightGeometry (2 * w) (2 * h)).quoteSize
          = 2 * (quoteHighlightGeometry w h).quoteSize
      ∧ (quoteHighlightGeometry (2 * w) (2 * h)).quoteMarkSize
          = 2 * (quoteHighlightGeometry w h).quoteMarkSize
      ∧ (quoteHighlightGeometry (2 * w) (2 * h)).attrSize
          = 2 * (quoteHighlightGeometry w h).attrSize)
    ∧ ((minimalistFocusGeometry (2 * w) (2 * h)).titleSize
          = 2 * (minimalistFocusGeometry w h).titleSize
      ∧ (minimalistFocusGeometry (2 * w) (2 * h)).bodySize
          = 2 * (minimalistFocusGeometry w h).bodySize
      ∧ (minimalistFocusGeometry (2 * w) (2 * h)).accentW
          = (minimalistFocusGeometry w h).accentW) := by
  obtain ⟨d1, d2, d3, d4, _, d6, d7, _⟩ := dictionaryGeometry_scales w h
  obtain ⟨h1, h2, h3, h4, h5, _, _, _, _, _, h11, _⟩ := headerBodyGeometry_scales w h
  obtain ⟨_, b2, b3, _, b5⟩ := boldCalloutGeometry_scales w h
  obtain ⟨_, q2, q3, _, _, _, _, _, _, q10⟩ := quoteHighlightGeometry_scales w h
  obtain ⟨_, m2, m3, _, _, _, _, _, _, m10⟩ := minimalistFocusGeometry_scales w h
  exact ⟨⟨d1, d2, d3, d4, d6, d7⟩, ⟨h1, h2, h3, h4, h5, h11⟩, ⟨b2, b3, b5⟩,
    ⟨q2, q3, q10⟩, ⟨m2, m3, m10⟩⟩

/-- Escaping a string with no reserved character leaves it unchanged. -/
theorem escapeXml_id_of_no_reserved (s : String)
    (hs : ∀ c ∈ s.data, c ≠ '&' ∧ c ≠ '<' ∧ c ≠ '>' ∧ c ≠ '"' ∧ c ≠ aposChar) :
    escapeXml s = s := by
  cases s with
  | mk l =>
    show String.mk (escapeXmlData l) = String.mk l
    congr 1
    rw [escapeXmlData_eq_flatMap]
    induction l with
    | nil => rfl
    | cons c cs ih =>
      have hc := hs c (by simp)
      have hcs : ∀ d ∈ cs, d ≠ '&' ∧ d ≠ '<' ∧ d ≠ '>' ∧ d ≠ '"' ∧ d ≠ aposChar :=
        fun d hd => hs d (by simp [hd])
      rw [List.flatMap_cons, ih hcs]
      simp [escChar, hc.1, hc.2.1, hc.2.2.1, hc.2.2.2.1, hc.2.2.2.2]

/-- C3, counterexample to the claim as stated: for an unknown layout
identifier containing a reserved character, the emitted metadata block
records it XML-escaped, so the original string does not appear in the
block verbatim ("bad&layout" is recorded as "bad&amp;layout"). -/
theorem counter_C3_metadata_not_verbatim :
    containsSeq "bad&layout".data
      (generateMetadata { slideLaunch with layout_type := "bad&layout" }).data = false
    ∧ containsSeq "bad&amp;layout".data
      (generateMetadata { slideLaunch with layout_type := "bad&layout" }).data = true := by
  refine ⟨by decide, by decide⟩

theorem strAppend_empty (a : String) : a ++ "" = a := by
  cases a
  show String.mk (_ ++ []) = _
  simp

theorem strEmpty_append (a : String) : "" ++ a = a := by
  cases a
  rfl

/-- The metadata block splits around the escaped layout identifier. -/
theorem generateMetadata_split (slide : SlideData) :
    generateMetadata slide =
      "\n<metadata>\n<goround:slide xmlns:goround=\"https://goround.dev/schema\">\n<goround:layout>"
      ++ escapeXml slide.layout_type
      ++ strConcat ["</goround:layout>\n<goround:carousel_id>", escapeXml slide.carousel_id,
          "</goround:carousel_id>\n<goround:slide_number>", toString slide.slide_number,
          "</goround:slide_number>\n<goround:variables>\n",
          String.intercalate "\n" (metadataVariables.map metaVarLine),
          "\n</goround:variables>\n</goround:slide>\n</metadata>"] := by
  simp [generateMetadata, strConcat_cons, strConcat_nil, strAppend_assoc, strAppend_empty]

/-- C3 (amended): a slide whose layout_type is neither a built-in
identifier nor a resolvable custom reference renders through the
header/body fallback without failing; the metadata block embeds the
XML-escaped original layout_type — which is the identifier verbatim
whenever it contains no reserved markup character, as
"custom-missing-id" does — and the full document with metadata enabled
contains that metadata block. -/
theorem claim_C3_unknown_layout_fallback (layouts : List CustomLayout) (slide : SlideData)
    (w h : ℚ) (fonts : FontSettings)
    (hnb : slide.layout_type ∉ (["dictionary_entry", "bold_callout", "header_body",
      "quote_highlight", "minimalist_focus"] : List String))
    (hnc : List.isPrefixOf "custom-".data slide.layout_type.data = false
      ∨ layouts.find? (fun l => l.id == String.mk (slide.layout_type.data.drop 7)) = none) :
    renderLayoutContent layouts slide w h fonts = renderHeaderBody slide w h fonts
    ∧ (∃ pre post : String, generateMetadata slide = pre ++ escapeXml slide.layout_type ++ post)
    ∧ ((∀ c ∈ slide.layout_type.data, c ≠ '&' ∧ c ≠ '<' ∧ c ≠ '>' ∧ c ≠ '"' ∧ c ≠ aposChar) →
        escapeXml slide.layout_type = slide.layout_type)
    ∧ ∀ (customFonts : List CustomFont) (preset : ExportPreset), ∃ a b : String,
        slideToSvg customFonts layouts fonts slide preset true = a ++ generateMetadata slide ++ b := by
  simp only [List.mem_cons, List.not_mem_nil, or_false, not_or] at hnb
  obtain ⟨n1, n2, n3, n4, n5⟩ := hnb
  refine ⟨?_, ?_, ?_, ?_⟩
  · simp only [renderLayoutContent, n1, n2, n3, n4, n5, if_false]
    rcases hnc with ha | hb
    · simp [ha]
    · by_cases hpre : List.isPrefixOf "custom-".data slide.layout_type.data
      · simp [hpre, hb]
      · simp [hpre]
  · exact ⟨_, _, generateMetadata_split slide⟩
  · exact fun hres => escapeXml_id_of_no_reserved _ hres
  · intro customFonts preset
    refine ⟨strConcat ["<?xml version=\"1.0\" encoding=\"UTF-8\"?>\n<svg xmlns=\"http://www.w3.org/2000/svg\"\n xmlns:xlink=\"http://www.w3.org/1999/xlink\"\n width=\"",
        numStr preset.width, "\" height=\"", numStr preset.height,
        "\"\n viewBox=\"0 0 ", numStr preset.width, " ", numStr preset.height,
        "\">\n\n<defs>\n<style type=\"text/css\">\n<![CDATA[\n",
        generateEmbeddedFontCSS customFonts fonts,
        "\n\n/* Default styles */\ntext \x7b\n dominant-baseline: hanging;\n\x7d\n]]>\n</style>\n</defs>\n\n"],
      strConcat ["\n\n", renderLayoutContent layouts slide preset.width preset.height fonts,
        "\n\n</svg>"], ?_⟩
    simp [slideToSvg, strConcat_cons, strConcat_nil, strAppend_assoc, strAppend_empty]

theorem claim_C3_unknown_layout_fallback_witness :
    renderLayoutContent [] { slideLaunch with layout_type := "custom-missing-id" }
        100 100 DEFAULT_FONT_SETTINGS_VALUE
      = renderHeaderBody { slideLaunch with layout_type := "custom-missing-id" }
        100 100 DEFAULT_FONT_SETTINGS_VALUE
    ∧ escapeXml "custom-missing-id" = "custom-missing-id" := by
  have h := claim_C3_unknown_layout_fallback []
    { slideLaunch with layout_type := "custom-missing-id" } 100 100 DEFAULT_FONT_SETTINGS_VALUE
    (by decide) (Or.inr rfl)
  exact ⟨h.1, h.2.2.1 (by decide)⟩

theorem truthy_some {t : String} (ht : t ≠ "") : truthy (some t) = true := by
  simp [truthy, ht]

theorem orEmpty_some (t : String) : orEmpty (some t) = t := rfl

/-- Splitting on a separator that does not occur yields one segment. -/
theorem splitOnChar_no_sep (c : Char) (l : List Char) (h : ∀ x ∈ l, x ≠ c) :
    splitOnChar c l = [l] := by
  induction l with
  | nil => rfl
  | cons x xs ih =>
    have hx : x ≠ c := h x (by simp)
    have hxs : ∀ y ∈ xs, y ≠ c := fun y hy => h y (by simp [hy])
    have hstep : splitOnChar c (x :: xs) =
        (match splitOnChar c xs with
         | [] => [[x]]
         | a :: as => if x = c then [] :: a :: as else (x :: a) :: as) := rfl
    rw [hstep, ih hxs]
    simp [hx]

/-- C1: every free-text value embedded by the document codec goes
through escapeXml, and escapeXml performs exactly the per-character
replacement of the five reserved markup characters by their entity
escapes.  The conjuncts: (1) escapeXml equals the character-wise escape
table; (2) escaped text contains no raw `<`, `>`, `"` or apostrophe;
(3-11) each built-in variant embeds each of its free-text slots as
`pre ++ escapeXml value ++ post` with pre/post independent of the
value; (12) bold_callout does the same for a one-line text; (13) custom
substitution receives every text field already escaped. -/
theorem claim_C1_text_escaping (slide : SlideData) (w h : ℚ) (fonts : FontSettings) :
    (∀ s : String, escapeXml s = String.mk (s.data.flatMap escChar))
    ∧ (∀ s : String, ∀ d ∈ (escapeXml s).data, d ≠ '<' ∧ d ≠ '>' ∧ d ≠ '"' ∧ d ≠ aposChar)
    ∧ EmbedsEscaped (fun t => renderDictionaryEntry { slide with title := some t } w h fonts)
    ∧ EmbedsEscaped (fun t => renderDictionaryEntry { slide with subtitle := some t } w h fonts)
    ∧ EmbedsEscaped (fun t => renderDictionaryEntry { slide with body_text := some t } w h fonts)
    ∧ EmbedsEscaped (fun t => renderHeaderBody { slide with title := some t } w h fonts)
    ∧ EmbedsEscaped (fun t => renderHeaderBody { slide with body_text := some t } w h fonts)
    ∧ EmbedsEscaped (fun t => renderQuoteHighlight { slide with quote := some t } w h fonts)
    ∧ EmbedsEscaped (fun t => renderQuoteHighlight { slide with title := some t } w h fonts)
    ∧ EmbedsEscaped (fun t => renderMinimalistFocus { slide with title := some t } w h fonts)
    ∧ EmbedsEscaped (fun t => renderMinimalistFocus { slide with body_text := some t } w h fonts)
    ∧ (∃ pre post : String, ∀ t : String, t ≠ "" → t.data.contains '\n' = false →
        renderBoldCallout { slide with body_text := some t } w h fonts
          = pre ++ escapeXml t ++ post)
    ∧ ∀ layout : CustomLayout, renderCustomLayout slide w h fonts layout =
        renderCustomLayoutSub (escapeXml (orEmpty slide.title))
          (escapeXml (orEmpty slide.body_text)) (escapeXml (orEmpty slide.subtitle))
          (escapeXml (orEmpty slide.quote)) slide w h fonts layout := by
  obtain ⟨sid, scar, snum, slt, stitle, ssub, sbody, squote, sbg, sfc, sac⟩ := slide
  refine ⟨?_, ?_, ?_, ?_, ?_, ?_, ?_, ?_, ?_, ?_, ?_, ?_, fun layout => rfl⟩
  · intro s
    cases s with
    | mk l => exact congrArg String.mk (escapeXmlData_eq_flatMap l)
  · exact fun s => escapeXml_no_raw s
  · refine ⟨backgroundRect sbg w h ++ contentOpen ++ dictTitleOpen w h fonts.headingFont sfc,
      textClose
        ++ (if truthy ssub then
              dictSubtitleOpen w h fonts.bodyFont sac ++ escapeXml (orEmpty ssub) ++ textClose
            else "")
        ++ dictAccentLine w h sac
        ++ (if truthy sbody then
              dictBodyOpen w h fonts.bodyFont sfc ++ escapeXml (orEmpty sbody) ++ foreignClose
            else "")
        ++ contentClose, fun t ht => ?_⟩
    simp only [renderDictionaryEntry, truthy_some ht, if_true, orEmpty_some, strAppend_assoc]
  · refine ⟨backgroundRect sbg w h ++ contentOpen
        ++ (if truthy stitle then
              dictTitleOpen w h fonts.headingFont sfc ++ escapeXml (orEmpty stitle) ++ textClose
            else "")
        ++ dictSubtitleOpen w h fonts.bodyFont sac,
      textClose
        ++ dictAccentLine w h sac
        ++ (if truthy sbody then
              dictBodyOpen w h fonts.bodyFont sfc ++ escapeXml (orEmpty sbody) ++ foreignClose
            else "")
        ++ contentClose, fun t ht => ?_⟩
    simp only [renderDictionaryEntry, truthy_some ht, if_true, orEmpty_some, strAppend_assoc]
  · refine ⟨backgroundRect sbg w h ++ contentOpen
        ++ (if truthy stitle then
              dictTitleOpen w h fonts.headingFont sfc ++ escapeXml (orEmpty stitle) ++ textClose
            else "")
        ++ (if truthy ssub then
              dictSubtitleOpen w h fonts.bodyFont sac ++ escapeXml (orEmpty ssub) ++ textClose
            else "")
        ++ dictAccentLine w h sac ++ dictBodyOpen w h fonts.bodyFont sfc,
      foreignClose ++ contentClose, fun t ht => ?_⟩
    simp only [renderDictionaryEntry, truthy_some ht, if_true, orEmpty_some, strAppend_assoc]
  · refine ⟨backgroundRect sbg w h ++ contentOpen ++ headerTitleOpen w h fonts.headingFont sfc,
      textClose
        ++ headerAccentRect w h sac
        ++ (if truthy sbody then
              headerBodyOpen w h fonts.bodyFont sfc ++ escapeXml (orEmpty sbody) ++ foreignClose
            else "")
        ++ contentClose, fun t ht => ?_⟩
    simp only [renderHeaderBody, truthy_some ht, if_true, orEmpty_some, strAppend_assoc]
  · refine ⟨backgroundRect sbg w h ++ contentOpen
        ++ (if truthy stitle then
              headerTitleOpen w h fonts.headingFont sfc ++ escapeXml (orEmpty stitle) ++ textClose
            else "")
        ++ headerAccentRect w h sac ++ headerBodyOpen w h fonts.bodyFont sfc,
      foreignClose ++ contentClose, fun t ht => ?_⟩
    simp only [renderHeaderBody, truthy_some ht, if_true, orEmpty_some, strAppend_assoc]
  · refine ⟨backgroundRect sbg w h ++ contentOpen ++ quoteMark w h sac
        ++ quoteFoOpen w h fonts.accentFont sfc,
      foreignClose
        ++ (if truthy stitle then
              quoteAttrOpen w h fonts.bodyFont sac ++ escapeXml (orEmpty stitle) ++ textClose
            else "")
        ++ contentClose, fun t ht => ?_⟩
    simp only [renderQuoteHighlight, truthy_some ht, if_true, orEmpty_some, Bool.true_or,
      strAppend_assoc]
  · refine ⟨backgroundRect sbg w h ++ contentOpen ++ quoteMark w h sac
        ++ (if truthy squote || truthy sbody then
              quoteFoOpen w h fonts.accentFont sfc
                ++ escapeXml (if truthy squote then orEmpty squote
                              else if truthy sbody then orEmpty sbody else "")
                ++ foreignClose
            else "")
        ++ quoteAttrOpen w h fonts.bodyFont sac,
      textClose ++ contentClose, fun t ht => ?_⟩
    simp only [renderQuoteHighlight, truthy_some ht, if_true, orEmpty_some, strAppend_assoc]
  · refine ⟨backgroundRect sbg w h ++ contentOpen ++ miniAccentRect w h sac
        ++ miniTitleOpen w h fonts.headingFont sfc,
      textClose
        ++ (if truthy sbody then
              miniBodyOpen w h fonts.bodyFont sfc ++ escapeXml (orEmpty sbody) ++ foreignClose
            else "")
        ++ contentClose, fun t ht => ?_⟩
    simp only [renderMinimalistFocus, truthy_some ht, if_true, orEmpty_some, strAppend_assoc]
  · refine ⟨backgroundRect sbg w h ++ contentOpen ++ miniAccentRect w h sac
        ++ (if truthy stitle then
              miniTitleOpen w h fonts.headingFont sfc ++ escapeXml (orEmpty stitle) ++ textClose
            else "")
        ++ miniBodyOpen w h fonts.bodyFont sfc,
      foreignClose ++ contentClose, fun t ht => ?_⟩
    simp only [renderMinimalistFocus, truthy_some ht, if_true, orEmpty_some, strAppend_assoc]
  · refine ⟨backgroundRect sbg w h ++ contentOpen ++ boldLineOpen w h 1 0 fonts.headingFont sfc,
      textClose ++ contentClose, fun t ht hnl => ?_⟩
    have hnosep : ∀ x ∈ t.data, x ≠ '\n' := by
      intro x hx hc
      subst hc
      simp at hnl
      exact hnl hx
    have hsrc : boldSourceText ⟨sid, scar, snum, slt, stitle, ssub, some t, squote, sbg, sfc, sac⟩
        = t := by
      simp only [boldSourceText, truthy_some ht, if_true]
      rfl
    simp only [renderBoldCallout, hsrc, splitOnChar_no_sep '\n' t.data hnosep]
    simp only [List.length_cons, List.length_nil, List.enum, List.enumFrom, List.map_cons,
      List.map_nil, String.join, List.foldl]
    simp only [strEmpty_append, strAppend_assoc]

theorem claim_C1_text_escaping_witness :
    escapeXml "A&B<C>" = "A&amp;B&lt;C&gt;"
    ∧ ∃ pre post : String,
        renderHeaderBody { slideLaunch with title := some "R&D <svg>" } 100 100
          DEFAULT_FONT_SETTINGS_VALUE = pre ++ escapeXml "R&D <svg>" ++ post := by
  have h := claim_C1_text_escaping slideLaunch 100 100 DEFAULT_FONT_SETTINGS_VALUE
  refine ⟨?_, ?_⟩
  · rw [h.1]
    decide
  · obtain ⟨pre, post, hf⟩ := h.2.2.2.2.2.1
    exact ⟨pre, post, hf "R&D <svg>" (by decide)⟩

/-- C9, counterexample to the claim as stated: when body_text and title
are both absent, bold_callout still renders one text element — the
empty fallback string splits into a single empty line — so the absent
optional fields do not degrade to omitting the element; empty markup is
emitted. -/
theorem counter_C9_bold_empty_markup :
    containsSeq "<text id=\"body-text-0\"".data
      (renderBoldCallout slideNoOptional 100 100 DEFAULT_FONT_SETTINGS_VALUE).data = true
    ∧ boldSourceText slideNoOptional = ""
    ∧ splitOnChar '\n' (boldSourceText slideNoOptional).data = [[]] := by
  refine ⟨by decide, rfl, rfl⟩

theorem truthy_none : truthy none = false := rfl

/-- C9 (amended): rendering never throws for missing or empty optional
fields (an empty field behaves exactly like an absent one), and in
dictionary_entry, header_body, quote_highlight and minimalist_focus
each absent optional field independently causes its element to be
omitted from the output; bold_callout is the exception — with both
body_text and title absent it still emits a single text element with
empty content.  The closed conjuncts exhibit omission and presence of
each element on concrete slides. -/
theorem claim_C9_optional_field_omission (slide : SlideData) (w h : ℚ) (fonts : FontSettings) :
    (truthy slide.title = false → renderDictionaryEntry slide w h fonts
      = renderDictionaryEntry { slide with title := none } w h fonts)
    ∧ (truthy slide.subtitle = false → renderDictionaryEntry slide w h fonts
      = renderDictionaryEntry { slide with subtitle := none } w h fonts)
    ∧ (truthy slide.body_text = false → renderDictionaryEntry slide w h fonts
      = renderDictionaryEntry { slide with body_text := none } w h fonts)
    ∧ (truthy slide.title = false → renderHeaderBody slide w h fonts
      = renderHeaderBody { slide with title := none } w h fonts)
    ∧ (truthy slide.body_text = false → renderHeaderBody slide w h fonts
      = renderHeaderBody { slide with body_text := none } w h fonts)
    ∧ (truthy slide.quote = false → renderQuoteHighlight slide w h fonts
      = renderQuoteHighlight { slide with quote := none } w h fonts)
    ∧ (truthy slide.title = false → renderQuoteHighlight slide w h fonts
      = renderQuoteHighlight { slide with title := none } w h fonts)
    ∧ (truthy slide.title = false → renderMinimalistFocus slide w h fonts
      = renderMinimalistFocus { slide with title := none } w h fonts)
    ∧ (truthy slide.body_text = false → renderMinimalistFocus slide w h fonts
      = renderMinimalistFocus { slide with body_text := none } w h fonts)
    ∧ (truthy slide.body_text = false → renderBoldCallout slide w h fonts
      = renderBoldCallout { slide with body_text := none } w h fonts)
    ∧ containsSeq "title-text".data
        (renderDictionaryEntry slideNoOptional 100 100 DEFAULT_FONT_SETTINGS_VALUE).data = false
    ∧ containsSeq "subtitle-text".data
        (renderDictionaryEntry slideNoOptional 100 100 DEFAULT_FONT_SETTINGS_VALUE).data = false
    ∧ containsSeq "foreignObject".data
        (renderDictionaryEntry slideNoOptional 100 100 DEFAULT_FONT_SETTINGS_VALUE).data = false
    ∧ containsSeq "title-text".data
        (renderHeaderBody slideNoOptional 100 100 DEFAULT_FONT_SETTINGS_VALUE).data = false
    ∧ containsSeq "foreignObject".data
        (renderHeaderBody slideNoOptional 100 100 DEFAULT_FONT_SETTINGS_VALUE).data = false
    ∧ containsSeq "title-text".data
        (renderMinimalistFocus slideNoOptional 100 100 DEFAULT_FONT_SETTINGS_VALUE).data = false
    ∧ containsSeq "foreignObject".data
        (renderMinimalistFocus slideNoOptional 100 100 DEFAULT_FONT_SETTINGS_VALUE).data = false
    ∧ containsSeq "foreignObject".data
        (renderQuoteHighlight slideNoOptional 100 100 DEFAULT_FONT_SETTINGS_VALUE).data = false
    ∧ containsSeq "attribution".data
        (renderQuoteHighlight slideNoOptional 100 100 DEFAULT_FONT_SETTINGS_VALUE).data = false
    ∧ containsSeq "title-text".data
        (renderDictionaryEntry slideAllFields 100 100 DEFAULT_FONT_SETTINGS_VALUE).data = true
    ∧ containsSeq "subtitle-text".data
        (renderDictionaryEntry slideAllFields 100 100 DEFAULT_FONT_SETTINGS_VALUE).data = true
    ∧ containsSeq "foreignObject".data
        (renderDictionaryEntry slideAllFields 100 100 DEFAULT_FONT_SETTINGS_VALUE).data = true
    ∧ containsSeq "title-text".data
        (renderHeaderBody slideAllFields 100 100 DEFAULT_FONT_SETTINGS_VALUE).data = true
    ∧ containsSeq "attribution".data
        (renderQuoteHighlight slideAllFields 100 100 DEFAULT_FONT_SETTINGS_VALUE).data = true := by
  obtain ⟨sid, scar, snum, slt, stitle, ssub, sbody, squote, sbg, sfc, sac⟩ := slide
  refine ⟨?_, ?_, ?_, ?_, ?_, ?_, ?_, ?_, ?_, ?_,
    by decide, by decide, by decide, by decide, by decide, by decide, by decide,
    by decide, by decide, by decide, by decide, by decide, by decide, by decide⟩
  · intro hf
    simp only at hf
    simp [renderDictionaryEntry, hf, truthy_none]
  · intro hf
    simp only at hf
    simp [renderDictionaryEntry, hf, truthy_none]
  · intro hf
    simp only at hf
    simp [renderDictionaryEntry, hf, truthy_none]
  · intro hf
    simp only at hf
    simp [renderHeaderBody, hf, truthy_none]
  · intro hf
    simp only at hf
    simp [renderHeaderBody, hf, truthy_none]
  · intro hf
    simp only at hf
    simp [renderQuoteHighlight, hf, truthy_none]
  · intro hf
    simp only at hf
    simp [renderQuoteHighlight, hf, truthy_none]
  · intro hf
    simp only at hf
    simp [renderMinimalistFocus, hf, truthy_none]
  · intro hf
    simp only at hf
    simp [renderMinimalistFocus, hf, truthy_none]
  · intro hf
    simp only at hf
    simp [renderBoldCallout, boldSourceText, hf, truthy_none]

theorem claim_C9_optional_field_omission_witness :
    renderDictionaryEntry { slideAllFields with title := some "" } 50 50
        DEFAULT_FONT_SETTINGS_VALUE
      = renderDictionaryEntry { slideAllFields with title := none } 50 50
        DEFAULT_FONT_SETTINGS_VALUE := by
  have h := claim_C9_optional_field_omission { slideAllFields with title := some "" } 50 50
    DEFAULT_FONT_SETTINGS_VALUE
  exact h.1 (by decide)
